import Mathlib

/-! NOVA microhypervisor: interrupt dispatch (src/aarch64/interrupt.cpp)

A shallow embedding of the interrupt dispatch core.  The controller
(Gicc, Gicd, Gicr), the scheduler (Sc, Sm), the timer and the SMMU are
external collaborators: every call made to them is appended to an effect
log, so that statements about what was issued, how often and in which order
are statements about that log.

The class constants (SGI_BASE, PPI_BASE, ...) are declared in interrupt.hpp
and in the board description; they are taken as parameters.
-/

namespace Nova

/-- Class constants of Interrupt together with the board constants and the
Sgi enumerators used by interrupt.cpp.  They are declared outside
interrupt.cpp and are parameters of the embedding. -/
structure Consts where
  SGI_BASE : Nat
  PPI_BASE : Nat
  SPI_BASE : Nat
  RSV_BASE : Nat
  SGI_NUM : Nat
  PPI_NUM : Nat
  SPI_NUM : Nat
  HTIMER_PPI : Nat
  VTIMER_PPI : Nat
  SMMU_SPI : Nat
  RRQ : Nat
  RKE : Nat
deriving DecidableEq, Repr

/-- Event selector returned to the trap-entry caller (Event::Selector). -/
inductive Selector where
  | NONE
  | VTIMER
deriving DecidableEq, Repr

/-- One entry of int_table: the fields sm, cpu, gst and dir of class
Interrupt.  The semaphore pointer sm is a reference, none standing for the
null pointer; cpu is a uint16. -/
structure Interrupt where
  sm : Option Nat
  cpu : Nat
  gst : Bool
  dir : Bool
deriving DecidableEq, Repr

/-- Calls made to the external collaborators, in program order. -/
inductive Effect where
  | gicc_ack
  | gicc_eoi (val : Nat)
  | gicc_dir (val : Nat)
  | gicc_send_sgi (sgi : Nat) (cpu : Nat)
  | gicd_conf (line : Nat) (trg : Option Bool) (cpu : Option Nat)
  | gicd_mask (line : Nat) (msk : Bool)
  | gicd_send_sgi (sgi : Nat) (cpu : Nat)
  | gicr_conf (line : Nat) (trg : Option Bool)
  | gicr_mask (line : Nat) (msk : Bool)
  | sc_rrq_handler
  | timer_interrupt
  | smmu_interrupt
  | sm_create (cnt : Nat) (id : Nat)
  | sm_up (sm : Nat)
  | trace_intr
deriving DecidableEq, Repr

/-- Abnormal exits: a failed assert, an index outside int_table, a call
through a null semaphore pointer. -/
inductive Fault where
  | assertion
  | out_of_bounds
  | null_deref
deriving DecidableEq, Repr

/-- Program state: the static table int_table, the run-time controller
generation Gicd::arch, and the log of calls issued so far. -/
structure State where
  int_table : List Interrupt
  arch : Nat
  log : List Effect
deriving DecidableEq, Repr

/-- Outcome of a call that may hit a fatal exit.  An abnormal exit carries
the state reached when it is taken. -/
inductive Res (α : Type) where
  | ok (val : α) (s : State)
  | fault (f : Fault) (s : State)
deriving DecidableEq, Repr

/-- Unsigned 32-bit subtraction, wrapping modulo 2^32. -/
def sub32 (a b : Nat) : Nat :=
  (a % 4294967296 + (4294967296 - b % 4294967296)) % 4294967296

/-- Unsigned 32-bit addition, wrapping modulo 2^32. -/
def add32 (a b : Nat) : Nat :=
  (a + b) % 4294967296

/-- Append one call to the log. -/
def emit (e : Effect) (s : State) : State :=
  { s with log := s.log ++ [e] }

/-- The zero-initialised static array Interrupt::int_table[SPI_NUM]. -/
def int_table_static (c : Consts) : List Interrupt :=
  List.replicate c.SPI_NUM { sm := none, cpu := 0, gst := false, dir := false }

/-- Body of the loop of Interrupt::init for index i: the semaphore created
by Sm::create (0, i) is identified by i. -/
def init_step (i : Nat) (s : State) : State :=
  match s.int_table[i]? with
  | none => s
  | some r =>
    emit (.sm_create 0 i) { s with int_table := s.int_table.set i { r with sm := some i } }

/-- Interrupt::init: for (i = 0; i < SPI_NUM; i++) int_table[i].sm = Sm::create (0, i). -/
def init (c : Consts) (s : State) : State :=
  (List.range c.SPI_NUM).foldl (fun acc i => init_step i acc) s

/-- Interrupt::handle_sgi. -/
def handle_sgi (c : Consts) (val : Nat) (_vcpu : Bool) (s : State) : Res Selector :=
  let sgi := sub32 (val &&& 0x3ff) c.SGI_BASE
  if sgi < c.SGI_NUM then
    let s1 := if sgi = c.RRQ then emit .sc_rrq_handler s else s
    let s2 := emit (.gicc_eoi val) s1
    let s3 := emit (.gicc_dir val) s2
    .ok .NONE s3
  else
    .fault .assertion s

/-- Interrupt::handle_ppi. -/
def handle_ppi (c : Consts) (val : Nat) (vcpu : Bool) (s : State) : Res Selector :=
  let ppi := sub32 (val &&& 0x3ff) c.PPI_BASE
  if ppi < c.PPI_NUM then
    let evt0 := Selector.NONE
    let es : Selector × State :=
      if ppi = c.HTIMER_PPI then (evt0, emit .timer_interrupt s)
      else if ppi = c.VTIMER_PPI then ((if vcpu then Selector.VTIMER else evt0), s)
      else (evt0, s)
    let s2 := emit (.gicc_eoi val) es.2
    let s3 := if es.1 = Selector.NONE then emit (.gicc_dir val) s2 else s2
    .ok es.1 s3
  else
    .fault .assertion s

/-- Interrupt::handle_spi. -/
def handle_spi (c : Consts) (val : Nat) (_vcpu : Bool) (s : State) : Res Selector :=
  let spi := sub32 (val &&& 0x3ff) c.SPI_BASE
  if spi < c.SPI_NUM then
    if spi = c.SMMU_SPI then
      let s1 := emit .smmu_interrupt s
      let s2 := emit (.gicc_eoi val) s1
      let s3 := emit (.gicc_dir val) s2
      .ok .NONE s3
    else
      let s1 := emit (.gicc_eoi val) s
      match s1.int_table[spi]? with
      | none => .fault .out_of_bounds s1
      | some r =>
        let r1 : Interrupt := if !r.gst then { r with dir := true } else r
        let s2 := if !r.gst then { s1 with int_table := s1.int_table.set spi r1 } else s1
        match r1.sm with
        | none => .fault .null_deref s2
        | some h => .ok .NONE (emit (.sm_up h) s2)
  else
    .fault .assertion s

/-- Interrupt::handler; val is the value returned by Gicc::ack. -/
def handler (c : Consts) (vcpu : Bool) (val : Nat) (s : State) : Res Selector :=
  let s0 := emit .gicc_ack s
  let i := val &&& 0x3ff
  if i < c.PPI_BASE then
    handle_sgi c val vcpu s0
  else if i < c.SPI_BASE then
    handle_ppi c val vcpu s0
  else if i < c.RSV_BASE then
    handle_spi c val vcpu s0
  else
    .ok .NONE s0

/-- Interrupt::conf_sgi. -/
def conf_sgi (c : Consts) (sgi : Nat) (msk : Bool) (s : State) : State :=
  let s1 := emit .trace_intr s
  let s2 :=
    if s1.arch < 3 then emit (.gicd_conf (add32 sgi c.SGI_BASE) none none) s1
    else emit (.gicr_conf (add32 sgi c.SGI_BASE) none) s1
  if s2.arch < 3 then emit (.gicd_mask (add32 sgi c.SGI_BASE) msk) s2
  else emit (.gicr_mask (add32 sgi c.SGI_BASE) msk) s2

/-- Interrupt::conf_ppi. -/
def conf_ppi (c : Consts) (ppi : Nat) (msk : Bool) (trg : Bool) (s : State) : State :=
  let s1 := emit .trace_intr s
  let s2 :=
    if s1.arch < 3 then emit (.gicd_conf (add32 ppi c.PPI_BASE) (some trg) none) s1
    else emit (.gicr_conf (add32 ppi c.PPI_BASE) (some trg)) s1
  if s2.arch < 3 then emit (.gicd_mask (add32 ppi c.PPI_BASE) msk) s2
  else emit (.gicr_mask (add32 ppi c.PPI_BASE) msk) s2

/-- Interrupt::conf_spi.  The cast static_cast<uint16>(cpu) keeps the low 16
bits of cpu; Gicd::conf receives cpu itself. -/
def conf_spi (c : Consts) (spi : Nat) (cpu : Nat) (msk : Bool) (trg : Bool) (gst : Bool)
    (s : State) : Res Unit :=
  let s1 := emit .trace_intr s
  match s1.int_table[spi]? with
  | none => .fault .out_of_bounds s1
  | some r =>
    let s2 := { s1 with int_table := s1.int_table.set spi { r with cpu := cpu % 65536 } }
    match s2.int_table[spi]? with
    | none => .fault .out_of_bounds s2
    | some r2 =>
      let s3 := { s2 with int_table := s2.int_table.set spi { r2 with gst := gst } }
      let s4 := emit (.gicd_conf (add32 spi c.SPI_BASE) (some trg) (some cpu)) s3
      let s5 := emit (.gicd_mask (add32 spi c.SPI_BASE) msk) s4
      .ok () s5

/-- Interrupt::send_sgi. -/
def send_sgi (sgi : Nat) (cpu : Nat) (s : State) : State :=
  if s.arch < 3 then emit (.gicd_send_sgi sgi cpu) s else emit (.gicc_send_sgi sgi cpu) s

/-- Interrupt::deactivate_spi. -/
def deactivate_spi (c : Consts) (spi : Nat) (s : State) : Res Unit :=
  match s.int_table[spi]? with
  | none => .fault .out_of_bounds s
  | some r =>
    if r.dir then
      let s1 := { s with int_table := s.int_table.set spi { r with dir := false } }
      .ok () (emit (.gicc_dir (add32 spi c.SPI_BASE)) s1)
    else
      .ok () s

/-- A sample instantiation of the constants: 16 software-generated, 16
private and 988 shared identifiers below the reserved base 1020, with the
timers on private lines 10 and 11 and the SMMU on shared line 42. -/
def sampleConsts : Consts :=
  { SGI_BASE := 0, PPI_BASE := 16, SPI_BASE := 32, RSV_BASE := 1020,
    SGI_NUM := 16, PPI_NUM := 16, SPI_NUM := 988,
    HTIMER_PPI := 10, VTIMER_PPI := 11, SMMU_SPI := 42,
    RRQ := 0, RKE := 1 }

/-- The table after init for the sample constants, with line 3 configured
as given. -/
def sampleTable (gst dir : Bool) : List Interrupt :=
  ((List.range 988).map fun i => ({ sm := some i, cpu := 0, gst := false, dir := false } : Interrupt)).set 3
    { sm := some 3, cpu := 0, gst := gst, dir := dir }

/-- A sample state over the sample table. -/
def sampleState (gst dir : Bool) : State :=
  { int_table := sampleTable gst dir, arch := 2, log := [] }

/-- The record of line k after a call, when the call returned. -/
def Res.line {α : Type} (r : Res α) (k : Nat) : Option Interrupt :=
  match r with
  | .ok _ s => s.int_table[k]?
  | .fault _ _ => none

/-- The log of calls after a call, when the call returned. -/
def Res.calls {α : Type} (r : Res α) : Option (List Effect) :=
  match r with
  | .ok _ s => some s.log
  | .fault _ _ => none

/-- The four outcomes of the range tests of Interrupt::handler. -/
inductive Route where
  | sgi
  | ppi
  | spi
  | none
deriving DecidableEq, Repr

/-- The range tests of Interrupt::handler on the identifier i, each return
statement replaced by the name of the handler it calls. -/
def route (c : Consts) (i : Nat) : Route :=
  if i < c.PPI_BASE then .sgi
  else if i < c.SPI_BASE then .ppi
  else if i < c.RSV_BASE then .spi
  else .none

/-- The entry points of the interface, each with its arguments; for handler
the value is the one returned by Gicc::ack. -/
inductive Op where
  | handler (vcpu : Bool) (val : Nat)
  | conf_sgi (sgi : Nat) (msk : Bool)
  | conf_ppi (ppi : Nat) (msk : Bool) (trg : Bool)
  | conf_spi (spi : Nat) (cpu : Nat) (msk : Bool) (trg : Bool) (gst : Bool)
  | send_sgi (sgi : Nat) (cpu : Nat)
  | deactivate_spi (spi : Nat)
deriving DecidableEq, Repr

/-- One call of an entry point. -/
def step (c : Consts) (op : Op) (s : State) : Res Unit :=
  match op with
  | .handler vcpu val =>
    match handler c vcpu val s with
    | .ok _ s1 => .ok () s1
    | .fault f s1 => .fault f s1
  | .conf_sgi sgi msk => .ok () (conf_sgi c sgi msk s)
  | .conf_ppi ppi msk trg => .ok () (conf_ppi c ppi msk trg s)
  | .conf_spi spi cpu msk trg gst => conf_spi c spi cpu msk trg gst s
  | .send_sgi sgi cpu => .ok () (send_sgi sgi cpu s)
  | .deactivate_spi spi => deactivate_spi c spi s

/-- Recognises a Gicc::dir call. -/
def is_gicc_dir (e : Effect) : Bool :=
  match e with
  | .gicc_dir _ => true
  | _ => false

/-- Number of Gicc::dir calls appended to the log between s and s1. -/
def issued_dirs (s s1 : State) : Nat :=
  ((s1.log.drop s.log.length).filter is_gicc_dir).length

/-- The call is a handler invocation that acknowledges shared line k. -/
def acks_line (c : Consts) (k : Nat) (op : Op) : Bool :=
  match op with
  | .handler _ val => decide (val &&& 0x3ff = c.SPI_BASE + k)
  | _ => false

/-- The record of line k in s is not guest-owned. -/
def host_owned (s : State) (k : Nat) : Bool :=
  match s.int_table[k]? with
  | some r => !r.gst
  | none => false

/-- Number of Gicc::dir calls issued by the deactivate_spi (k) calls of the
sequence, run from s until its end or its first abnormal exit. -/
def deact_dirs (c : Consts) (k : Nat) (ops : List Op) (s : State) : Nat :=
  match ops with
  | [] => 0
  | op :: rest =>
    match step c op s with
    | .ok _ s1 =>
      (if op = Op.deactivate_spi k then issued_dirs s s1 else 0) + deact_dirs c k rest s1
    | .fault _ _ => 0

/-- Number of completed handler invocations of the sequence that acknowledge
line k, run from s until its end or its first abnormal exit. -/
def acks (c : Consts) (k : Nat) (ops : List Op) (s : State) : Nat :=
  match ops with
  | [] => 0
  | op :: rest =>
    match step c op s with
    | .ok _ s1 => (if acks_line c k op then 1 else 0) + acks c k rest s1
    | .fault _ _ => 0

/-- Number of completed handler invocations of the sequence that acknowledge
line k while its record is not guest-owned. -/
def host_acks (c : Consts) (k : Nat) (ops : List Op) (s : State) : Nat :=
  match ops with
  | [] => 0
  | op :: rest =>
    match step c op s with
    | .ok _ s1 =>
      (if acks_line c k op && host_owned s k then 1 else 0) + host_acks c k rest s1
    | .fault _ _ => 0

/-- The dir flag of line k as a number: 1 when set, 0 otherwise. -/
def pending (s : State) (k : Nat) : Nat :=
  match s.int_table[k]? with
  | some r => if r.dir then 1 else 0
  | none => 0

/-- The fields of a record that only configuration may write: sm, cpu
and gst. -/
def config_fields (r : Interrupt) : Option Nat × Nat × Bool :=
  (r.sm, r.cpu, r.gst)

/-! ## Auxiliary lemmas -/

theorem land_3ff_lt (v : Nat) : v &&& 0x3ff < 1024 := by
  have h := Nat.and_pow_two_sub_one_eq_mod v 10
  have h2 : v &&& 0x3ff = v % 1024 := by simpa using h
  omega

theorem sub32_eq_sub {a b : Nat} (hba : b ≤ a) (ha : a < 4294967296) : sub32 a b = a - b := by
  unfold sub32; omega

theorem spi_index {c : Consts} {val k : Nat} (hval : val &&& 0x3ff = c.SPI_BASE + k) :
    sub32 (val &&& 0x3ff) c.SPI_BASE = k := by
  have h := land_3ff_lt val
  rw [sub32_eq_sub (by omega) (by omega)]; omega

theorem ppi_index {c : Consts} {val p : Nat} (hval : val &&& 0x3ff = c.PPI_BASE + p) :
    sub32 (val &&& 0x3ff) c.PPI_BASE = p := by
  have h := land_3ff_lt val
  rw [sub32_eq_sub (by omega) (by omega)]; omega

/-- An identifier SPI_BASE + k of an in-range line k is dispatched to handle_spi. -/
theorem handler_to_spi {c : Consts} {val k : Nat} (vcpu : Bool) (s : State)
    (hps : c.PPI_BASE ≤ c.SPI_BASE) (hrsv : c.SPI_BASE + c.SPI_NUM ≤ c.RSV_BASE)
    (hk : k < c.SPI_NUM) (hval : val &&& 0x3ff = c.SPI_BASE + k) :
    handler c vcpu val s = handle_spi c val vcpu (emit .gicc_ack s) := by
  unfold handler
  have h1 : ¬ (val &&& 0x3ff < c.PPI_BASE) := by omega
  have h2 : ¬ (val &&& 0x3ff < c.SPI_BASE) := by omega
  have h3 : val &&& 0x3ff < c.RSV_BASE := by omega
  simp only [h1, h2, h3, if_true, if_false]

/-- An identifier PPI_BASE + p of an in-range private index p is dispatched to handle_ppi. -/
theorem handler_to_ppi {c : Consts} {val p : Nat} (vcpu : Bool) (s : State)
    (hlay : c.PPI_BASE + c.PPI_NUM ≤ c.SPI_BASE)
    (hp : p < c.PPI_NUM) (hval : val &&& 0x3ff = c.PPI_BASE + p) :
    handler c vcpu val s = handle_ppi c val vcpu (emit .gicc_ack s) := by
  unfold handler
  have h1 : ¬ (val &&& 0x3ff < c.PPI_BASE) := by omega
  have h2 : val &&& 0x3ff < c.SPI_BASE := by omega
  simp only [h1, h2, if_true, if_false]

/-- What handle_spi does for a line other than the SMMU line. -/
theorem handle_spi_line {c : Consts} {val k h : Nat} (vcpu : Bool) {s : State} {r : Interrupt}
    (hk : k < c.SPI_NUM) (hne : k ≠ c.SMMU_SPI) (hval : val &&& 0x3ff = c.SPI_BASE + k)
    (hrec : s.int_table[k]? = some r) (hsm : r.sm = some h) :
    handle_spi c val vcpu s = .ok .NONE
      { int_table := if r.gst then s.int_table else s.int_table.set k { r with dir := true },
        arch := s.arch,
        log := s.log ++ [.gicc_eoi val, .sm_up h] } := by
  unfold handle_spi
  simp only [spi_index hval, hk, hne, if_true, if_false, emit, hrec]
  cases hg : r.gst <;> simp [hsm]

/-! ## Shared interrupts: guest-owned and host-owned lines -/

/-- C1 (as amended): for an in-range shared line k other than the SMMU line
whose record has gst = true, whatever its dir flag and the vcpu flag,
Interrupt::handler on a value whose low 10 bits are SPI_BASE + k returns
NONE, leaves the whole table (hence the dir flag of line k) as it was, and
issues, after the acknowledge, exactly one Gicc::eoi and one Sm::up of the
line's semaphore and no Gicc::dir. -/
theorem handler_spi_guest_owned (c : Consts) (vcpu : Bool) (val k h : Nat) (s : State)
    (r : Interrupt)
    (hps : c.PPI_BASE ≤ c.SPI_BASE) (hrsv : c.SPI_BASE + c.SPI_NUM ≤ c.RSV_BASE)
    (hk : k < c.SPI_NUM) (hne : k ≠ c.SMMU_SPI) (hval : val &&& 0x3ff = c.SPI_BASE + k)
    (hrec : s.int_table[k]? = some r) (hg : r.gst = true) (hsm : r.sm = some h) :
    handler c vcpu val s = .ok .NONE
      { int_table := s.int_table, arch := s.arch,
        log := s.log ++ [.gicc_ack, .gicc_eoi val, .sm_up h] } ∧
    (handler c vcpu val s).line k = some r := by
  have hrun : handler c vcpu val s = .ok .NONE
      { int_table := s.int_table, arch := s.arch,
        log := s.log ++ [.gicc_ack, .gicc_eoi val, .sm_up h] } := by
    rw [handler_to_spi vcpu s hps hrsv hk hval,
      handle_spi_line vcpu (s := emit .gicc_ack s) hk hne hval hrec hsm]
    simp [emit, hg]
  refine ⟨hrun, ?_⟩
  rw [hrun]; exact hrec

set_option maxRecDepth 100000 in
/-- Instance of handler_spi_guest_owned: line 3 of the sample table,
guest-owned with the flag clear, acknowledged as identifier 35. -/
theorem handler_spi_guest_owned_witness :
    handler sampleConsts true 35 (sampleState true false) = .ok .NONE
      { int_table := sampleTable true false, arch := 2,
        log := [.gicc_ack, .gicc_eoi 35, .sm_up 3] } ∧
    (handler sampleConsts true 35 (sampleState true false)).line 3
      = some { sm := some 3, cpu := 0, gst := true, dir := false } :=
  handler_spi_guest_owned sampleConsts true 35 3 3 (sampleState true false)
    { sm := some 3, cpu := 0, gst := true, dir := false }
    (by decide) (by decide) (by decide) (by decide) (by decide) (by decide) rfl rfl

set_option maxRecDepth 100000 in
/-- C1 as stated fails: line 3 is in range, is not the SMMU line, is
guest-owned with the dir flag clear, and identifier 35 = SPI_BASE + 3 is
acknowledged; after the handler the dir flag of line 3 is still false. -/
theorem handler_spi_guest_owned_flag_stays_clear :
    (35 &&& 0x3ff = sampleConsts.SPI_BASE + 3 ∧ 3 < sampleConsts.SPI_NUM ∧
      3 ≠ sampleConsts.SMMU_SPI) ∧
    (sampleState true false).int_table[3]?
      = some { sm := some 3, cpu := 0, gst := true, dir := false } ∧
    ((handler sampleConsts false 35 (sampleState true false)).line 3).map (fun r => r.dir)
      = some false := by
  decide

/-- C2 (as amended): for an in-range shared line k other than the SMMU line
whose record has gst = false, Interrupt::handler on a value whose low 10
bits are SPI_BASE + k returns NONE, sets the dir flag of line k to true and
changes nothing else in the table, and issues, after the acknowledge,
exactly one Gicc::eoi and one Sm::up of the line's semaphore and no
Gicc::dir: deactivation is left to a later deactivate_spi. -/
theorem handler_spi_host_owned (c : Consts) (vcpu : Bool) (val k h : Nat) (s : State)
    (r : Interrupt)
    (hps : c.PPI_BASE ≤ c.SPI_BASE) (hrsv : c.SPI_BASE + c.SPI_NUM ≤ c.RSV_BASE)
    (hk : k < c.SPI_NUM) (hne : k ≠ c.SMMU_SPI) (hval : val &&& 0x3ff = c.SPI_BASE + k)
    (hrec : s.int_table[k]? = some r) (hg : r.gst = false) (hsm : r.sm = some h) :
    handler c vcpu val s = .ok .NONE
      { int_table := s.int_table.set k { r with dir := true }, arch := s.arch,
        log := s.log ++ [.gicc_ack, .gicc_eoi val, .sm_up h] } ∧
    (handler c vcpu val s).line k = some { r with dir := true } := by
  have hrun : handler c vcpu val s = .ok .NONE
      { int_table := s.int_table.set k { r with dir := true }, arch := s.arch,
        log := s.log ++ [.gicc_ack, .gicc_eoi val, .sm_up h] } := by
    rw [handler_to_spi vcpu s hps hrsv hk hval,
      handle_spi_line vcpu (s := emit .gicc_ack s) hk hne hval hrec hsm]
    simp [emit, hg]
  refine ⟨hrun, ?_⟩
  rw [hrun]
  have hlt : k < s.int_table.length := by
    rcases List.getElem?_eq_some_iff.mp hrec with ⟨hlt, _⟩
    exact hlt
  simp [Res.line, hlt]

set_option maxRecDepth 100000 in
/-- Instance of handler_spi_host_owned: line 3 of the sample table,
host-owned with the flag clear, acknowledged as identifier 35. -/
theorem handler_spi_host_owned_witness :
    handler sampleConsts false 35 (sampleState false false) = .ok .NONE
      { int_table := (sampleTable false false).set 3
          { sm := some 3, cpu := 0, gst := false, dir := true },
        arch := 2,
        log := [.gicc_ack, .gicc_eoi 35, .sm_up 3] } ∧
    (handler sampleConsts false 35 (sampleState false false)).line 3
      = some { sm := some 3, cpu := 0, gst := false, dir := true } :=
  handler_spi_host_owned sampleConsts false 35 3 3 (sampleState false false)
    { sm := some 3, cpu := 0, gst := false, dir := false }
    (by decide) (by decide) (by decide) (by decide) (by decide) (by decide) rfl rfl

set_option maxRecDepth 100000 in
/-- C2 as stated fails: line 3 is in range, is not the SMMU line and is
host-owned, and identifier 35 = SPI_BASE + 3 is acknowledged; after the
handler the dir flag of line 3 is true and the calls issued are the
acknowledge, one Gicc::eoi and one Sm::up, with no Gicc::dir among them. -/
theorem handler_spi_host_owned_flag_set_no_dir :
    (35 &&& 0x3ff = sampleConsts.SPI_BASE + 3 ∧ 3 < sampleConsts.SPI_NUM ∧
      3 ≠ sampleConsts.SMMU_SPI) ∧
    (sampleState false false).int_table[3]?
      = some { sm := some 3, cpu := 0, gst := false, dir := false } ∧
    ((handler sampleConsts false 35 (sampleState false false)).line 3).map (fun r => r.dir)
      = some true ∧
    (handler sampleConsts false 35 (sampleState false false)).calls
      = some [.gicc_ack, .gicc_eoi 35, .sm_up 3] := by
  decide

/-! ## Deactivation -/

/-- C3: Interrupt::deactivate_spi on an in-range line k.  If the dir flag of
the line is set, the call clears it and issues exactly one Gicc::dir, with
argument k + SPI_BASE; if the flag is clear, the state is returned as it
was, with no call issued.  A second call right after the first returns the
state of the first unchanged: same table, and no further Gicc::dir. -/
theorem deactivate_spi_latch (c : Consts) (k : Nat) (s : State)
    (hfit : c.SPI_BASE + c.SPI_NUM ≤ 4294967296) (hk : k < c.SPI_NUM)
    (hlen : s.int_table.length = c.SPI_NUM) :
    ∃ r, s.int_table[k]? = some r ∧
      (r.dir = true → deactivate_spi c k s = .ok ()
          { int_table := s.int_table.set k { r with dir := false }, arch := s.arch,
            log := s.log ++ [.gicc_dir (k + c.SPI_BASE)] }) ∧
      (r.dir = false → deactivate_spi c k s = .ok () s) ∧
      ∃ s1, deactivate_spi c k s = .ok () s1 ∧ deactivate_spi c k s1 = .ok () s1 := by
  have hlt : k < s.int_table.length := by omega
  have hadd : add32 k c.SPI_BASE = k + c.SPI_BASE := by unfold add32; omega
  refine ⟨s.int_table[k], List.getElem?_eq_getElem hlt, ?_, ?_, ?_⟩
  · intro hd
    simp [deactivate_spi, List.getElem?_eq_getElem hlt, hd, emit, hadd]
  · intro hd
    simp [deactivate_spi, List.getElem?_eq_getElem hlt, hd]
  · cases hd : s.int_table[k].dir
    · refine ⟨s, ?_, ?_⟩ <;> simp [deactivate_spi, List.getElem?_eq_getElem hlt, hd]
    · refine ⟨{ int_table := s.int_table.set k { s.int_table[k] with dir := false },
                arch := s.arch, log := s.log ++ [.gicc_dir (k + c.SPI_BASE)] }, ?_, ?_⟩
      · simp [deactivate_spi, List.getElem?_eq_getElem hlt, hd, emit, hadd]
      · simp [deactivate_spi, hlt]

set_option maxRecDepth 100000 in
/-- Instance of deactivate_spi_latch: line 3 of the sample table. -/
theorem deactivate_spi_latch_witness :
    ∃ r, (sampleState false true).int_table[3]? = some r ∧
      (r.dir = true → deactivate_spi sampleConsts 3 (sampleState false true) = .ok ()
          { int_table := (sampleState false true).int_table.set 3 { r with dir := false },
            arch := (sampleState false true).arch,
            log := (sampleState false true).log ++ [.gicc_dir (3 + sampleConsts.SPI_BASE)] }) ∧
      (r.dir = false →
        deactivate_spi sampleConsts 3 (sampleState false true) = .ok () (sampleState false true)) ∧
      ∃ s1, deactivate_spi sampleConsts 3 (sampleState false true) = .ok () s1 ∧
        deactivate_spi sampleConsts 3 s1 = .ok () s1 :=
  deactivate_spi_latch sampleConsts 3 (sampleState false true) (by decide) (by decide)
    (by decide)

/-! ## Private interrupts and software-generated interrupts -/

/-- C4: on a value whose low 10 bits are PPI_BASE + VTIMER_PPI,
Interrupt::handler called with vcpu = true returns VTIMER after the
acknowledge and exactly one Gicc::eoi, with no Gicc::dir; called with
vcpu = false it returns NONE after the acknowledge, one Gicc::eoi and then
one Gicc::dir.  In both cases Timer::interrupt is not called and the table
is unchanged. -/
theorem handler_vtimer (c : Consts) (val : Nat) (s : State)
    (hlay : c.PPI_BASE + c.PPI_NUM ≤ c.SPI_BASE) (hv : c.VTIMER_PPI < c.PPI_NUM)
    (hne : c.HTIMER_PPI ≠ c.VTIMER_PPI)
    (hval : val &&& 0x3ff = c.PPI_BASE + c.VTIMER_PPI) :
    handler c true val s = .ok .VTIMER
      { int_table := s.int_table, arch := s.arch,
        log := s.log ++ [.gicc_ack, .gicc_eoi val] } ∧
    handler c false val s = .ok .NONE
      { int_table := s.int_table, arch := s.arch,
        log := s.log ++ [.gicc_ack, .gicc_eoi val, .gicc_dir val] } := by
  have hne2 : ¬ (c.VTIMER_PPI = c.HTIMER_PPI) := fun h => hne h.symm
  constructor
  · rw [handler_to_ppi true s hlay hv hval]
    simp [handle_ppi, ppi_index hval, hv, hne2, emit]
  · rw [handler_to_ppi false s hlay hv hval]
    simp [handle_ppi, ppi_index hval, hv, hne2, emit]

set_option maxRecDepth 100000 in
/-- Instance of handler_vtimer: identifier 27 = PPI_BASE + 11 with the
sample constants, under an acknowledge value with further high bits set. -/
theorem handler_vtimer_witness :
    handler sampleConsts true 1051 (sampleState true false)
      = .ok .VTIMER { int_table := sampleTable true false, arch := 2,
                      log := [] ++ [.gicc_ack, .gicc_eoi 1051] } ∧
    handler sampleConsts false 1051 (sampleState true false)
      = .ok .NONE { int_table := sampleTable true false, arch := 2,
                    log := [] ++ [.gicc_ack, .gicc_eoi 1051, .gicc_dir 1051] } :=
  handler_vtimer sampleConsts 1051 (sampleState true false)
    (by decide) (by decide) (by decide) (by decide)

/-- C5: on a value whose low 10 bits are an identifier in
[SGI_BASE, PPI_BASE) with index below SGI_NUM, for either vcpu flag,
Interrupt::handler returns NONE, leaves the table unchanged and issues,
after the acknowledge, Sc::rrq_handler once exactly when the index is
Sgi::RRQ, and then exactly one Gicc::eoi followed by exactly one Gicc::dir,
both carrying the raw value. -/
theorem handler_sgi (c : Consts) (vcpu : Bool) (val : Nat) (s : State)
    (hlo : c.SGI_BASE ≤ val &&& 0x3ff) (hhi : val &&& 0x3ff < c.PPI_BASE)
    (hidx : (val &&& 0x3ff) - c.SGI_BASE < c.SGI_NUM) :
    handler c vcpu val s = .ok .NONE
      { int_table := s.int_table, arch := s.arch,
        log := s.log ++ [.gicc_ack]
          ++ (if (val &&& 0x3ff) - c.SGI_BASE = c.RRQ then [.sc_rrq_handler] else [])
          ++ [.gicc_eoi val, .gicc_dir val] } := by
  have hb := land_3ff_lt val
  have hsub : sub32 (val &&& 0x3ff) c.SGI_BASE = (val &&& 0x3ff) - c.SGI_BASE :=
    sub32_eq_sub hlo (by omega)
  unfold handler
  simp only [hhi, if_true]
  unfold handle_sgi
  simp only [hsub, hidx, if_true]
  by_cases hr : (val &&& 0x3ff) - c.SGI_BASE = c.RRQ <;> simp [hr, emit]

set_option maxRecDepth 100000 in
/-- Instance of handler_sgi: identifier 0, the request-queue index of the
sample constants. -/
theorem handler_sgi_witness :
    handler sampleConsts true 0 (sampleState true false) = .ok .NONE
      { int_table := sampleTable true false, arch := 2,
        log := [] ++ [.gicc_ack]
          ++ (if (0 &&& 0x3ff) - sampleConsts.SGI_BASE = sampleConsts.RRQ
                then [.sc_rrq_handler] else [])
          ++ [.gicc_eoi 0, .gicc_dir 0] } :=
  handler_sgi sampleConsts true 0 (sampleState true false)
    (by decide) (by decide) (by decide)

/-! ## Classification -/

/-- C6: Interrupt::handler classifies by i = val & 0x3ff alone.  The call is
the handler selected by route on i (handle_sgi, handle_ppi, handle_spi, or
the bare return of NONE), and with PPI_BASE <= SPI_BASE <= RSV_BASE the
selection is: handle_sgi iff i < PPI_BASE, handle_ppi iff
PPI_BASE <= i < SPI_BASE, handle_spi iff SPI_BASE <= i < RSV_BASE, none iff
RSV_BASE <= i.  Two raw values with the same low 10 bits are routed
alike. -/
theorem handler_classifies (c : Consts) (vcpu : Bool) (val : Nat) (s : State)
    (hps : c.PPI_BASE ≤ c.SPI_BASE) (hsr : c.SPI_BASE ≤ c.RSV_BASE) :
    (handler c vcpu val s =
      match route c (val &&& 0x3ff) with
      | .sgi => handle_sgi c val vcpu (emit .gicc_ack s)
      | .ppi => handle_ppi c val vcpu (emit .gicc_ack s)
      | .spi => handle_spi c val vcpu (emit .gicc_ack s)
      | .none => .ok .NONE (emit .gicc_ack s)) ∧
    (route c (val &&& 0x3ff) = .sgi ↔ val &&& 0x3ff < c.PPI_BASE) ∧
    (route c (val &&& 0x3ff) = .ppi ↔
      c.PPI_BASE ≤ val &&& 0x3ff ∧ val &&& 0x3ff < c.SPI_BASE) ∧
    (route c (val &&& 0x3ff) = .spi ↔
      c.SPI_BASE ≤ val &&& 0x3ff ∧ val &&& 0x3ff < c.RSV_BASE) ∧
    (route c (val &&& 0x3ff) = .none ↔ c.RSV_BASE ≤ val &&& 0x3ff) ∧
    (∀ val2 : Nat, val2 &&& 0x3ff = val &&& 0x3ff →
      route c (val2 &&& 0x3ff) = route c (val &&& 0x3ff)) := by
  unfold handler route
  generalize val &&& 0x3ff = i
  refine ⟨?_, ?_, ?_, ?_, ?_, ?_⟩
  · by_cases h1 : i < c.PPI_BASE
    · simp [h1]
    · by_cases h2 : i < c.SPI_BASE
      · simp [h1, h2]
      · by_cases h3 : i < c.RSV_BASE <;> simp [h1, h2, h3]
  · by_cases h1 : i < c.PPI_BASE
    · simp [h1]
    · by_cases h2 : i < c.SPI_BASE
      · simp [h1, h2]
      · by_cases h3 : i < c.RSV_BASE <;> simp [h1, h2, h3]
  · by_cases h1 : i < c.PPI_BASE
    · simp [h1]
    · by_cases h2 : i < c.SPI_BASE
      · simp [h1, h2]; omega
      · by_cases h3 : i < c.RSV_BASE <;> simp [h1, h2, h3]
  · by_cases h1 : i < c.PPI_BASE
    · simp [h1]; omega
    · by_cases h2 : i < c.SPI_BASE
      · simp [h1, h2]
      · (by_cases h3 : i < c.RSV_BASE <;> simp [h1, h2, h3]); omega
  · by_cases h1 : i < c.PPI_BASE
    · simp [h1]; omega
    · by_cases h2 : i < c.SPI_BASE
      · simp [h1, h2]; omega
      · (by_cases h3 : i < c.RSV_BASE <;> simp [h1, h2, h3]); omega
  · intro val2 h; rw [h]


set_option maxRecDepth 100000 in
/-- Instance of handler_classifies: identifier 35 with the sample constants,
where 16 <= 32 <= 1020. -/
theorem handler_classifies_witness :
    (sampleConsts.PPI_BASE ≤ sampleConsts.SPI_BASE ∧
      sampleConsts.SPI_BASE ≤ sampleConsts.RSV_BASE) ∧
    (handler sampleConsts true 35 (sampleState true false) =
      match route sampleConsts (35 &&& 0x3ff) with
      | .sgi => handle_sgi sampleConsts 35 true (emit .gicc_ack (sampleState true false))
      | .ppi => handle_ppi sampleConsts 35 true (emit .gicc_ack (sampleState true false))
      | .spi => handle_spi sampleConsts 35 true (emit .gicc_ack (sampleState true false))
      | .none => .ok .NONE (emit .gicc_ack (sampleState true false))) ∧
    (route sampleConsts (35 &&& 0x3ff) = .sgi ↔ 35 &&& 0x3ff < sampleConsts.PPI_BASE) ∧
    (route sampleConsts (35 &&& 0x3ff) = .ppi ↔
      sampleConsts.PPI_BASE ≤ 35 &&& 0x3ff ∧ 35 &&& 0x3ff < sampleConsts.SPI_BASE) ∧
    (route sampleConsts (35 &&& 0x3ff) = .spi ↔
      sampleConsts.SPI_BASE ≤ 35 &&& 0x3ff ∧ 35 &&& 0x3ff < sampleConsts.RSV_BASE) ∧
    (route sampleConsts (35 &&& 0x3ff) = .none ↔ sampleConsts.RSV_BASE ≤ 35 &&& 0x3ff) ∧
    (∀ val2 : Nat, val2 &&& 0x3ff = 35 &&& 0x3ff →
      route sampleConsts (val2 &&& 0x3ff) = route sampleConsts (35 &&& 0x3ff)) :=
  ⟨⟨by decide, by decide⟩,
    handler_classifies sampleConsts true 35 (sampleState true false) (by decide) (by decide)⟩

/-- C7: on a value whose low 10 bits are at or above RSV_BASE, for either
vcpu flag, Interrupt::handler returns NONE and the state after it differs
from the state before only by the acknowledge that produced the value: no
Gicc::eoi, no Gicc::dir, no callback, no Sm::up, and the table unchanged. -/
theorem handler_reserved (c : Consts) (vcpu : Bool) (val : Nat) (s : State)
    (hps : c.PPI_BASE ≤ c.SPI_BASE) (hsr : c.SPI_BASE ≤ c.RSV_BASE)
    (hval : c.RSV_BASE ≤ val &&& 0x3ff) :
    handler c vcpu val s = .ok .NONE
      { int_table := s.int_table, arch := s.arch, log := s.log ++ [.gicc_ack] } := by
  unfold handler
  have h1 : ¬ (val &&& 0x3ff < c.PPI_BASE) := by omega
  have h2 : ¬ (val &&& 0x3ff < c.SPI_BASE) := by omega
  have h3 : ¬ (val &&& 0x3ff < c.RSV_BASE) := by omega
  simp only [h1, h2, h3, if_false, emit]

set_option maxRecDepth 100000 in
/-- Instance of handler_reserved: the spurious identifier 1023. -/
theorem handler_reserved_witness :
    handler sampleConsts true 1023 (sampleState true true) = .ok .NONE
      { int_table := sampleTable true true, arch := 2, log := [] ++ [.gicc_ack] } :=
  handler_reserved sampleConsts true 1023 (sampleState true true)
    (by decide) (by decide) (by decide)

/-- C8: on a value whose low 10 bits are SPI_BASE + SMMU_SPI, for every
state and either vcpu flag, Interrupt::handler returns NONE, issues after
the acknowledge Smmu::interrupt once, then one Gicc::eoi, then one
Gicc::dir, and no Sm::up, and leaves every record of the table as it was.
The table is not consulted: the statement holds for every table, whatever
its length and whatever the record at index SMMU_SPI. -/
theorem handler_smmu (c : Consts) (vcpu : Bool) (val : Nat) (s : State)
    (hps : c.PPI_BASE ≤ c.SPI_BASE) (hrsv : c.SPI_BASE + c.SPI_NUM ≤ c.RSV_BASE)
    (hk : c.SMMU_SPI < c.SPI_NUM) (hval : val &&& 0x3ff = c.SPI_BASE + c.SMMU_SPI) :
    handler c vcpu val s = .ok .NONE
      { int_table := s.int_table, arch := s.arch,
        log := s.log ++ [.gicc_ack, .smmu_interrupt, .gicc_eoi val, .gicc_dir val] } := by
  rw [handler_to_spi vcpu s hps hrsv hk hval]
  unfold handle_spi
  simp [spi_index hval, hk, emit]

set_option maxRecDepth 100000 in
/-- Instance of handler_smmu: identifier 74 = SPI_BASE + 42. -/
theorem handler_smmu_witness :
    handler sampleConsts false 74 (sampleState true true) = .ok .NONE
      { int_table := sampleTable true true, arch := 2,
        log := [] ++ [.gicc_ack, .smmu_interrupt, .gicc_eoi 74, .gicc_dir 74] } :=
  handler_smmu sampleConsts false 74 (sampleState true true)
    (by decide) (by decide) (by decide) (by decide)

/-- C9: on a value whose low 10 bits are PPI_BASE + p for an in-range
private index p: if p is HTIMER_PPI, Interrupt::handler calls
Timer::interrupt exactly once, then issues one Gicc::eoi and one Gicc::dir
and returns NONE, whatever the vcpu flag; if p is any other index,
Timer::interrupt is not called: the calls are the acknowledge, one
Gicc::eoi and, unless VTIMER is returned, one Gicc::dir. -/
theorem handler_htimer (c : Consts) (vcpu : Bool) (val p : Nat) (s : State)
    (hlay : c.PPI_BASE + c.PPI_NUM ≤ c.SPI_BASE) (hp : p < c.PPI_NUM)
    (hval : val &&& 0x3ff = c.PPI_BASE + p) :
    (p = c.HTIMER_PPI →
      handler c vcpu val s = .ok .NONE
        { int_table := s.int_table, arch := s.arch,
          log := s.log ++ [.gicc_ack, .timer_interrupt, .gicc_eoi val, .gicc_dir val] }) ∧
    (p ≠ c.HTIMER_PPI →
      handler c vcpu val s =
        if p = c.VTIMER_PPI ∧ vcpu = true then
          .ok .VTIMER { int_table := s.int_table, arch := s.arch,
                        log := s.log ++ [.gicc_ack, .gicc_eoi val] }
        else
          .ok .NONE { int_table := s.int_table, arch := s.arch,
                      log := s.log ++ [.gicc_ack, .gicc_eoi val, .gicc_dir val] }) := by
  rw [handler_to_ppi vcpu s hlay hp hval]
  unfold handle_ppi
  simp only [ppi_index hval, hp, if_true]
  constructor
  · intro h
    simp [h, emit]
  · intro h
    by_cases hv : p = c.VTIMER_PPI
    · subst hv
      cases vcpu <;> simp [h, emit]
    · simp [h, hv, emit]

set_option maxRecDepth 100000 in
/-- Instance of handler_htimer: identifier 26 = PPI_BASE + 10. -/
theorem handler_htimer_witness :
    (10 = sampleConsts.HTIMER_PPI →
      handler sampleConsts true 26 (sampleState true false) = .ok .NONE
        { int_table := sampleTable true false, arch := 2,
          log := [] ++ [.gicc_ack, .timer_interrupt, .gicc_eoi 26, .gicc_dir 26] }) ∧
    (10 ≠ sampleConsts.HTIMER_PPI →
      handler sampleConsts true 26 (sampleState true false) =
        if 10 = sampleConsts.VTIMER_PPI ∧ true = true then
          .ok .VTIMER { int_table := sampleTable true false, arch := 2,
                        log := [] ++ [.gicc_ack, .gicc_eoi 26] }
        else
          .ok .NONE { int_table := sampleTable true false, arch := 2,
                      log := [] ++ [.gicc_ack, .gicc_eoi 26, .gicc_dir 26] }) :=
  handler_htimer sampleConsts true 26 10 (sampleState true false)
    (by decide) (by decide) (by decide)

/-! ## Configuration -/

/-- C10 (as amended): for an in-range line k, every cpu value and every
choice of msk, trg and gst, and whatever the controller generation held in
the state, Interrupt::conf_spi returns and the record of line k then reads
cpu modulo 2^16 in its cpu field and the requested flag in gst, its other
fields being as before.  The cpu field therefore reads back cpu itself
whenever cpu is below 65536. -/
theorem conf_spi_readback (c : Consts) (k cpu : Nat) (msk trg gst : Bool) (s : State)
    (hk : k < c.SPI_NUM) (hlen : s.int_table.length = c.SPI_NUM) :
    ∃ r, s.int_table[k]? = some r ∧
      (conf_spi c k cpu msk trg gst s).line k
        = some { r with cpu := cpu % 65536, gst := gst } ∧
      (cpu < 65536 →
        (conf_spi c k cpu msk trg gst s).line k = some { r with cpu := cpu, gst := gst }) := by
  have hlt : k < s.int_table.length := by omega
  have hrun : (conf_spi c k cpu msk trg gst s).line k
      = some { s.int_table[k] with cpu := cpu % 65536, gst := gst } := by
    simp [conf_spi, emit, Res.line, hlt]
  refine ⟨s.int_table[k], List.getElem?_eq_getElem hlt, hrun, ?_⟩
  intro hc
  rw [hrun, Nat.mod_eq_of_lt hc]

set_option maxRecDepth 100000 in
/-- Instance of conf_spi_readback: line 3 configured with cpu = 2, masked,
edge-triggered and guest-owned. -/
theorem conf_spi_readback_witness :
    ∃ r, (sampleState false false).int_table[3]? = some r ∧
      (conf_spi sampleConsts 3 2 true true true (sampleState false false)).line 3
        = some { r with cpu := 2 % 65536, gst := true } ∧
      (2 < 65536 →
        (conf_spi sampleConsts 3 2 true true true (sampleState false false)).line 3
          = some { r with cpu := 2, gst := true }) :=
  conf_spi_readback sampleConsts 3 2 true true true (sampleState false false)
    (by decide) (by decide)

set_option maxRecDepth 100000 in
/-- C10 as stated fails: conf_spi on the in-range line 3 with the 32-bit
value cpu = 65538 leaves 2 in the cpu field of the record, not 65538. -/
theorem conf_spi_cpu_truncated :
    (3 < sampleConsts.SPI_NUM ∧ 65538 < 4294967296) ∧
    ((conf_spi sampleConsts 3 65538 true true true (sampleState false false)).line 3).map
      (fun r => r.cpu) = some 2 := by
  decide

/-! ## Completed calls -/

/-- What a completed handle_sgi has done. -/
theorem handle_sgi_ok {c : Consts} {val : Nat} {vcpu : Bool} {s s1 : State} {evt : Selector}
    (h : handle_sgi c val vcpu s = .ok evt s1) :
    evt = .NONE ∧ s1.int_table = s.int_table ∧ s1.arch = s.arch ∧
    (s1.log = s.log ++ [.gicc_eoi val, .gicc_dir val] ∨
      s1.log = s.log ++ [.sc_rrq_handler, .gicc_eoi val, .gicc_dir val]) := by
  by_cases hlt : sub32 (val &&& 0x3ff) c.SGI_BASE < c.SGI_NUM
  · simp only [handle_sgi, hlt, if_true, Res.ok.injEq] at h
    obtain ⟨h1, h2⟩ := h
    subst h1 h2
    by_cases hr : sub32 (val &&& 0x3ff) c.SGI_BASE = c.RRQ <;> simp [hr, emit]
  · simp [handle_sgi, hlt] at h

/-- What a completed handle_ppi has done. -/
theorem handle_ppi_ok {c : Consts} {val : Nat} {vcpu : Bool} {s s1 : State} {evt : Selector}
    (h : handle_ppi c val vcpu s = .ok evt s1) :
    s1.int_table = s.int_table ∧ s1.arch = s.arch ∧
    ((evt = .VTIMER ∧ sub32 (val &&& 0x3ff) c.PPI_BASE = c.VTIMER_PPI ∧
        c.VTIMER_PPI ≠ c.HTIMER_PPI ∧ vcpu = true ∧
        s1.log = s.log ++ [.gicc_eoi val]) ∨
     (evt = .NONE ∧
        ¬ (sub32 (val &&& 0x3ff) c.PPI_BASE = c.VTIMER_PPI ∧
            c.VTIMER_PPI ≠ c.HTIMER_PPI ∧ vcpu = true) ∧
        (s1.log = s.log ++ [.gicc_eoi val, .gicc_dir val] ∨
          s1.log = s.log ++ [.timer_interrupt, .gicc_eoi val, .gicc_dir val]))) := by
  by_cases hlt : sub32 (val &&& 0x3ff) c.PPI_BASE < c.PPI_NUM
  · simp only [handle_ppi, hlt, if_true, Res.ok.injEq] at h
    obtain ⟨h1, h2⟩ := h
    subst h1 h2
    by_cases hh : sub32 (val &&& 0x3ff) c.PPI_BASE = c.HTIMER_PPI
    · simp [hh, emit]
      intro h1 h2; exact absurd h1.symm h2
    · by_cases hv : sub32 (val &&& 0x3ff) c.PPI_BASE = c.VTIMER_PPI
      · have hne : c.VTIMER_PPI ≠ c.HTIMER_PPI := fun e => hh (hv.trans e)
        cases vcpu <;> simp [hh, hv, hne, emit]
      · simp [hh, hv, emit]
  · simp [handle_ppi, hlt] at h

/-- What a completed handle_spi has done. -/
theorem handle_spi_ok {c : Consts} {val : Nat} {vcpu : Bool} {s s1 : State} {evt : Selector}
    (h : handle_spi c val vcpu s = .ok evt s1) :
    evt = .NONE ∧ s1.arch = s.arch ∧ sub32 (val &&& 0x3ff) c.SPI_BASE < c.SPI_NUM ∧
    ((sub32 (val &&& 0x3ff) c.SPI_BASE = c.SMMU_SPI ∧ s1.int_table = s.int_table ∧
        s1.log = s.log ++ [.smmu_interrupt, .gicc_eoi val, .gicc_dir val]) ∨
     (sub32 (val &&& 0x3ff) c.SPI_BASE ≠ c.SMMU_SPI ∧
        ∃ r hd, s.int_table[sub32 (val &&& 0x3ff) c.SPI_BASE]? = some r ∧ r.sm = some hd ∧
          s1.int_table = (if r.gst then s.int_table
            else s.int_table.set (sub32 (val &&& 0x3ff) c.SPI_BASE) { r with dir := true }) ∧
          s1.log = s.log ++ [.gicc_eoi val, .sm_up hd])) := by
  by_cases hlt : sub32 (val &&& 0x3ff) c.SPI_BASE < c.SPI_NUM
  · by_cases hsm : sub32 (val &&& 0x3ff) c.SPI_BASE = c.SMMU_SPI
    · have hlt2 : c.SMMU_SPI < c.SPI_NUM := hsm ▸ hlt
      simp only [handle_spi, hsm, hlt2, if_true, Res.ok.injEq] at h
      obtain ⟨h1, h2⟩ := h
      subst h1 h2
      exact ⟨rfl, rfl, hlt, Or.inl ⟨hsm, rfl, by simp [emit]⟩⟩
    · cases hr : s.int_table[sub32 (val &&& 0x3ff) c.SPI_BASE]? with
      | none => simp [handle_spi, hlt, hsm, emit, hr] at h
      | some r =>
        cases hhd : r.sm with
        | none => cases hg : r.gst <;> simp [handle_spi, hlt, hsm, emit, hr, hhd, hg] at h
        | some hd =>
          cases hg : r.gst <;> simp [handle_spi, hlt, hsm, emit, hr, hhd, hg] at h <;>
            obtain ⟨h1, h2⟩ := h <;> subst h1 h2 <;> simp [hlt, hsm, hg, hhd]
  · simp [handle_spi, hlt] at h

/-- What a completed handler has done to the generation and to the table:
the table is as before, or a host-owned record at the decoded shared index
has had its dir flag set. -/
theorem handler_table {c : Consts} {vcpu : Bool} {val : Nat} {s s1 : State} {evt : Selector}
    (h : handler c vcpu val s = .ok evt s1) :
    s1.arch = s.arch ∧
    (s1.int_table = s.int_table ∨
      ∃ r, ¬ (val &&& 0x3ff < c.SPI_BASE) ∧
        s.int_table[sub32 (val &&& 0x3ff) c.SPI_BASE]? = some r ∧ r.gst = false ∧
        s1.int_table = s.int_table.set (sub32 (val &&& 0x3ff) c.SPI_BASE)
          { r with dir := true }) := by
  unfold handler at h
  by_cases h1 : val &&& 0x3ff < c.PPI_BASE
  · simp only [h1, if_true] at h
    obtain ⟨-, ht, ha, -⟩ := handle_sgi_ok h
    exact ⟨ha, Or.inl ht⟩
  · by_cases h2 : val &&& 0x3ff < c.SPI_BASE
    · simp only [h1, h2, if_true, if_false] at h
      obtain ⟨ht, ha, -⟩ := handle_ppi_ok h
      exact ⟨ha, Or.inl ht⟩
    · by_cases h3 : val &&& 0x3ff < c.RSV_BASE
      · simp only [h1, h2, h3, if_true, if_false] at h
        obtain ⟨-, ha, -, hcase⟩ := handle_spi_ok h
        refine ⟨ha, ?_⟩
        rcases hcase with ⟨-, ht, -⟩ | ⟨-, r, hd, hr, -, ht, -⟩
        · exact Or.inl ht
        · cases hg : r.gst
          · right
            exact ⟨r, h2, hr, hg, by simpa [hg, emit] using ht⟩
          · left
            simpa [hg, emit] using ht
      · simp only [h1, h2, h3, if_false, Res.ok.injEq] at h
        obtain ⟨-, hs⟩ := h
        subst hs
        exact ⟨rfl, Or.inl rfl⟩

/-! ## Round trip and write discipline -/

/-- What conf_spi does to a state whose table holds a record for line k. -/
theorem conf_spi_run {c : Consts} {k : Nat} (cpu : Nat) (msk trg gst : Bool) {s : State}
    {r : Interrupt} (hrec : s.int_table[k]? = some r) :
    conf_spi c k cpu msk trg gst s = .ok ()
      { int_table := s.int_table.set k { r with cpu := cpu % 65536, gst := gst },
        arch := s.arch,
        log := s.log ++ [.trace_intr, .gicd_conf (add32 k c.SPI_BASE) (some trg) (some cpu),
                         .gicd_mask (add32 k c.SPI_BASE) msk] } := by
  have hlt : k < s.int_table.length := (List.getElem?_eq_some_iff.mp hrec).1
  have hr : s.int_table[k] = r := (List.getElem?_eq_some_iff.mp hrec).2
  simp [conf_spi, emit, hlt, hr]

/-- Acknowledge and deactivation of a guest-owned line whose dir flag is
clear: both calls return, and only the log has grown. -/
theorem ack_then_deactivate_guest {c : Consts} {k h : Nat} (val : Nat) (vcpu : Bool)
    (s1 : State) {r1 : Interrupt}
    (hps : c.PPI_BASE ≤ c.SPI_BASE) (hrsv : c.SPI_BASE + c.SPI_NUM ≤ c.RSV_BASE)
    (hk : k < c.SPI_NUM) (hne : k ≠ c.SMMU_SPI) (hval : val &&& 0x3ff = c.SPI_BASE + k)
    (hrec : s1.int_table[k]? = some r1) (hg : r1.gst = true) (hdir : r1.dir = false)
    (hsm : r1.sm = some h) :
    handler c vcpu val s1 = .ok .NONE
      { int_table := s1.int_table, arch := s1.arch,
        log := s1.log ++ [.gicc_ack, .gicc_eoi val, .sm_up h] } ∧
    deactivate_spi c k
      { int_table := s1.int_table, arch := s1.arch,
        log := s1.log ++ [.gicc_ack, .gicc_eoi val, .sm_up h] } = .ok ()
      { int_table := s1.int_table, arch := s1.arch,
        log := s1.log ++ [.gicc_ack, .gicc_eoi val, .sm_up h] } := by
  constructor
  · rw [handler_to_spi vcpu s1 hps hrsv hk hval,
      handle_spi_line vcpu (s := emit .gicc_ack s1) hk hne hval hrec hsm]
    simp [emit, hg]
  · simp [deactivate_spi, hrec, hdir]

/-- C11: round trip for a guest-owned line.  For an in-range line k other
than the SMMU line whose dir flag is clear, conf_spi with gst = true, then
handler on a value whose low 10 bits are SPI_BASE + k, then deactivate_spi
all return; the table after deactivate_spi is the table just before the
acknowledge (so line k has the same dir and the same gst), and the calls
issued since then are the acknowledge, one Gicc::eoi and exactly one Sm::up
of the line's semaphore. -/
theorem roundtrip_guest_owned (c : Consts) (k cpu val h : Nat) (msk trg vcpu : Bool)
    (s : State) (r : Interrupt)
    (hps : c.PPI_BASE ≤ c.SPI_BASE) (hrsv : c.SPI_BASE + c.SPI_NUM ≤ c.RSV_BASE)
    (hk : k < c.SPI_NUM) (hne : k ≠ c.SMMU_SPI) (hval : val &&& 0x3ff = c.SPI_BASE + k)
    (hrec : s.int_table[k]? = some r) (hdir : r.dir = false) (hsm : r.sm = some h) :
    ∃ s1 s2 s3,
      conf_spi c k cpu msk trg true s = .ok () s1 ∧
      handler c vcpu val s1 = .ok .NONE s2 ∧
      deactivate_spi c k s2 = .ok () s3 ∧
      s1.int_table[k]? = some { r with cpu := cpu % 65536, gst := true } ∧
      s3.int_table = s1.int_table ∧
      s3.int_table[k]? = s1.int_table[k]? ∧
      s3.log = s1.log ++ [.gicc_ack, .gicc_eoi val, .sm_up h] := by
  have hlt : k < s.int_table.length := (List.getElem?_eq_some_iff.mp hrec).1
  have hrec1 : (s.int_table.set k { r with cpu := cpu % 65536, gst := true })[k]?
      = some { r with cpu := cpu % 65536, gst := true } := by simp [hlt]
  have h23 := ack_then_deactivate_guest (c := c) (h := h) val vcpu
    { int_table := s.int_table.set k { r with cpu := cpu % 65536, gst := true },
      arch := s.arch,
      log := s.log ++ [.trace_intr,
        .gicd_conf (add32 k c.SPI_BASE) (some trg) (some cpu),
        .gicd_mask (add32 k c.SPI_BASE) msk] }
    hps hrsv hk hne hval hrec1 rfl hdir hsm
  exact ⟨_, _, _, conf_spi_run cpu msk trg true hrec, h23.1, h23.2, hrec1, rfl, rfl, rfl⟩

set_option maxRecDepth 100000 in
/-- Instance of roundtrip_guest_owned: line 3 of the sample table, configured
for cpu 2 and acknowledged as identifier 35. -/
theorem roundtrip_guest_owned_witness :
    ∃ s1 s2 s3,
      conf_spi sampleConsts 3 2 true true true (sampleState false false) = .ok () s1 ∧
      handler sampleConsts true 35 s1 = .ok .NONE s2 ∧
      deactivate_spi sampleConsts 3 s2 = .ok () s3 ∧
      s1.int_table[3]? = some { sm := some 3, cpu := 2 % 65536, gst := true, dir := false } ∧
      s3.int_table = s1.int_table ∧
      s3.int_table[3]? = s1.int_table[3]? ∧
      s3.log = s1.log ++ [.gicc_ack, .gicc_eoi 35, .sm_up 3] :=
  roundtrip_guest_owned sampleConsts 3 2 35 3 true true true (sampleState false false)
    { sm := some 3, cpu := 0, gst := false, dir := false }
    (by decide) (by decide) (by decide) (by decide) (by decide) (by decide) rfl rfl

/-- What a completed deactivate_spi has done to the table. -/
theorem deactivate_spi_ok {c : Consts} {k : Nat} {s s1 : State}
    (h : deactivate_spi c k s = .ok () s1) :
    ∃ r, s.int_table[k]? = some r ∧ s1.arch = s.arch ∧
      ((r.dir = false ∧ s1 = s) ∨
       (r.dir = true ∧ s1.int_table = s.int_table.set k { r with dir := false } ∧
          s1.log = s.log ++ [.gicc_dir (add32 k c.SPI_BASE)])) := by
  cases hr : s.int_table[k]? with
  | none => simp [deactivate_spi, hr] at h
  | some r =>
    refine ⟨r, rfl, ?_⟩
    cases hd : r.dir <;> simp [deactivate_spi, hr, hd, emit] at h <;> subst h <;> simp

/-- Replacing a record by one with the same sm, cpu and gst keeps these
fields at every index. -/
theorem config_fields_set {t : List Interrupt} {k : Nat} {r : Interrupt} (r1 : Interrupt)
    (hrec : t[k]? = some r) (hf : config_fields r1 = config_fields r) (j : Nat) :
    ((t.set k r1)[j]?).map config_fields = (t[j]?).map config_fields := by
  have hlt : k < t.length := (List.getElem?_eq_some_iff.mp hrec).1
  by_cases hj : k = j
  · subst hj
    simp [hlt, hrec, hf]
  · simp [List.getElem?_set_ne hj]

/-- C12: write discipline of the table.  A completed handler or
deactivate_spi keeps the length of the table and the sm, cpu and gst fields
of every record, and leaves every record other than the one at the index it
was invoked for as it was (so the dir flag changes for that one line at
most).  conf_sgi, conf_ppi and send_sgi return the table unchanged.  A
completed conf_spi (k, ...) leaves every record other than k as it was, and
keeps the dir and sm fields of line k. -/
theorem table_write_discipline (c : Consts) (s : State) :
    (∀ (vcpu : Bool) (val : Nat) (evt : Selector) (s1 : State),
      handler c vcpu val s = .ok evt s1 →
        s1.int_table.length = s.int_table.length ∧
        ∀ j : Nat,
          (s1.int_table[j]?).map config_fields = (s.int_table[j]?).map config_fields ∧
          (j ≠ sub32 (val &&& 0x3ff) c.SPI_BASE → s1.int_table[j]? = s.int_table[j]?)) ∧
    (∀ (k : Nat) (s1 : State),
      deactivate_spi c k s = .ok () s1 →
        s1.int_table.length = s.int_table.length ∧
        ∀ j : Nat,
          (s1.int_table[j]?).map config_fields = (s.int_table[j]?).map config_fields ∧
          (j ≠ k → s1.int_table[j]? = s.int_table[j]?)) ∧
    (∀ (sgi : Nat) (msk : Bool), (conf_sgi c sgi msk s).int_table = s.int_table) ∧
    (∀ (ppi : Nat) (msk trg : Bool), (conf_ppi c ppi msk trg s).int_table = s.int_table) ∧
    (∀ (sgi cpu : Nat), (send_sgi sgi cpu s).int_table = s.int_table) ∧
    (∀ (k cpu : Nat) (msk trg gst : Bool) (s1 : State),
      conf_spi c k cpu msk trg gst s = .ok () s1 →
        s1.int_table.length = s.int_table.length ∧
        (s1.int_table[k]?).map (fun r => (r.dir, r.sm))
          = (s.int_table[k]?).map (fun r => (r.dir, r.sm)) ∧
        ∀ j : Nat, j ≠ k → s1.int_table[j]? = s.int_table[j]?) := by
  refine ⟨?_, ?_, ?_, ?_, ?_, ?_⟩
  · intro vcpu val evt s1 h
    obtain ⟨-, ht | ⟨r, -, hr, -, ht⟩⟩ := handler_table h
    · rw [ht]; exact ⟨rfl, fun j => ⟨rfl, fun _ => rfl⟩⟩
    · rw [ht]
      refine ⟨by simp, fun j =>
        ⟨config_fields_set { r with dir := true } hr rfl j, fun hj => ?_⟩⟩
      exact List.getElem?_set_ne (Ne.symm hj)
  · intro k s1 h
    obtain ⟨r, hr, -, ⟨-, hs⟩ | ⟨-, ht, -⟩⟩ := deactivate_spi_ok h
    · rw [hs]; exact ⟨rfl, fun j => ⟨rfl, fun _ => rfl⟩⟩
    · rw [ht]
      refine ⟨by simp, fun j =>
        ⟨config_fields_set { r with dir := false } hr rfl j, fun hj => ?_⟩⟩
      exact List.getElem?_set_ne (Ne.symm hj)
  · intro sgi msk
    unfold conf_sgi
    by_cases ha : s.arch < 3 <;> simp [emit, ha]
  · intro ppi msk trg
    unfold conf_ppi
    by_cases ha : s.arch < 3 <;> simp [emit, ha]
  · intro sgi cpu
    unfold send_sgi
    by_cases ha : s.arch < 3 <;> simp [emit, ha]
  · intro k cpu msk trg gst s1 h
    cases hr : s.int_table[k]? with
    | none => simp [conf_spi, emit, hr] at h
    | some r =>
      have hlt : k < s.int_table.length := (List.getElem?_eq_some_iff.mp hr).1
      rw [conf_spi_run cpu msk trg gst hr] at h
      simp only [Res.ok.injEq, true_and] at h
      subst h
      refine ⟨by simp, by simp [hlt, hr], fun j hj => ?_⟩
      exact List.getElem?_set_ne (Ne.symm hj)

set_option maxRecDepth 100000 in
/-- Instance of table_write_discipline: the handler run on identifier 35 over
the sample table with line 3 host-owned, which sets the dir flag of line 3. -/
theorem table_write_discipline_witness :
    handler sampleConsts false 35 (sampleState false false) = .ok .NONE
      { int_table := (sampleTable false false).set 3
          { sm := some 3, cpu := 0, gst := false, dir := true },
        arch := 2, log := [.gicc_ack, .gicc_eoi 35, .sm_up 3] } ∧
    (((sampleTable false false).set 3
        { sm := some 3, cpu := 0, gst := false, dir := true }).length
        = (sampleState false false).int_table.length ∧
      ∀ j : Nat,
        (((sampleTable false false).set 3
            { sm := some 3, cpu := 0, gst := false, dir := true })[j]?).map config_fields
          = ((sampleState false false).int_table[j]?).map config_fields ∧
        (j ≠ sub32 (35 &&& 0x3ff) sampleConsts.SPI_BASE →
          ((sampleTable false false).set 3
            { sm := some 3, cpu := 0, gst := false, dir := true })[j]?
            = (sampleState false false).int_table[j]?)) :=
  ⟨by decide,
    (table_write_discipline sampleConsts (sampleState false false)).1 false 35 .NONE
      { int_table := (sampleTable false false).set 3
          { sm := some 3, cpu := 0, gst := false, dir := true },
        arch := 2, log := [.gicc_ack, .gicc_eoi 35, .sm_up 3] } (by decide)⟩

/-! ## The dir flag as a latch -/

theorem pending_le_one (s : State) (k : Nat) : pending s k ≤ 1 := by
  unfold pending
  cases s.int_table[k]? with
  | none => simp
  | some r => by_cases hd : r.dir = true <;> simp [hd]

/-- conf_sgi returns the table it was given. -/
theorem conf_sgi_table (c : Consts) (sgi : Nat) (msk : Bool) (s : State) :
    (conf_sgi c sgi msk s).int_table = s.int_table := by
  unfold conf_sgi
  by_cases ha : s.arch < 3 <;> simp [emit, ha]

/-- conf_ppi returns the table it was given. -/
theorem conf_ppi_table (c : Consts) (ppi : Nat) (msk trg : Bool) (s : State) :
    (conf_ppi c ppi msk trg s).int_table = s.int_table := by
  unfold conf_ppi
  by_cases ha : s.arch < 3 <;> simp [emit, ha]

/-- send_sgi returns the table it was given. -/
theorem send_sgi_table (sgi cpu : Nat) (s : State) :
    (send_sgi sgi cpu s).int_table = s.int_table := by
  unfold send_sgi
  by_cases ha : s.arch < 3 <;> simp [emit, ha]

theorem pending_congr (s s1 : State) {k : Nat} (h : s1.int_table[k]? = s.int_table[k]?) :
    pending s1 k = pending s k := by
  unfold pending; rw [h]

theorem pending_clear {s : State} (hclear : ∀ r ∈ s.int_table, r.dir = false) (k : Nat) :
    pending s k = 0 := by
  unfold pending
  cases hr : s.int_table[k]? with
  | none => rfl
  | some r =>
    have hmem : r ∈ s.int_table := by
      obtain ⟨hlt, he⟩ := List.getElem?_eq_some_iff.mp hr
      rw [← he]; exact List.getElem_mem hlt
    simp [hclear r hmem]

theorem issued_dirs_self (s : State) : issued_dirs s s = 0 := by
  simp [issued_dirs]

/-- One completed call: the Gicc::dir calls it issues as deactivate_spi (k)
plus the flag of line k after it are covered by the flag before it plus one
if it is an acknowledge of line k taken while the line is host-owned. -/
theorem step_latch {c : Consts} {k : Nat} {op : Op} {s s1 : State}
    (h : step c op s = .ok () s1) :
    (if op = Op.deactivate_spi k then issued_dirs s s1 else 0) + pending s1 k
      ≤ (if acks_line c k op && host_owned s k then 1 else 0) + pending s k := by
  cases op with
  | handler vcpu val =>
    simp only [step] at h
    cases hh : handler c vcpu val s with
    | fault f s2 => simp [hh] at h
    | ok evt s2 =>
      simp only [hh, Res.ok.injEq, true_and] at h
      subst h
      simp only [reduceCtorEq, if_false, Nat.zero_add]
      obtain ⟨-, ht | ⟨r, hlo, hr, hg, ht⟩⟩ := handler_table hh
      · rw [pending_congr s s2 (by rw [ht])]; omega
      · by_cases hk : sub32 (val &&& 0x3ff) c.SPI_BASE = k
        · have hb := land_3ff_lt val
          have hsub : sub32 (val &&& 0x3ff) c.SPI_BASE = (val &&& 0x3ff) - c.SPI_BASE :=
            sub32_eq_sub (by omega) (by omega)
          have hack : acks_line c k (Op.handler vcpu val) = true := by
            simp only [acks_line, decide_eq_true_eq]; omega
          have hhost : host_owned s k = true := by
            rw [← hk]; simp [host_owned, hr, hg]
          have := pending_le_one s2 k
          simp only [hack, hhost, Bool.and_self, if_true]
          omega
        · rw [pending_congr s s2
            (by rw [ht]; exact List.getElem?_set_ne hk)]
          omega
  | conf_sgi sgi msk =>
    simp only [step, Res.ok.injEq, true_and] at h
    subst h
    simp only [reduceCtorEq, if_false, Nat.zero_add]
    rw [pending_congr s _ (by rw [conf_sgi_table])]; omega
  | conf_ppi ppi msk trg =>
    simp only [step, Res.ok.injEq, true_and] at h
    subst h
    simp only [reduceCtorEq, if_false, Nat.zero_add]
    rw [pending_congr s _ (by rw [conf_ppi_table])]; omega
  | send_sgi sgi cpu =>
    simp only [step, Res.ok.injEq, true_and] at h
    subst h
    simp only [reduceCtorEq, if_false, Nat.zero_add]
    rw [pending_congr s _ (by rw [send_sgi_table])]; omega
  | conf_spi k1 cpu msk trg gst =>
    simp only [step] at h
    simp only [reduceCtorEq, if_false, Nat.zero_add]
    cases hr : s.int_table[k1]? with
    | none => simp [conf_spi, emit, hr] at h
    | some r =>
      have hlt : k1 < s.int_table.length := (List.getElem?_eq_some_iff.mp hr).1
      rw [conf_spi_run cpu msk trg gst hr] at h
      simp only [Res.ok.injEq, true_and] at h
      subst h
      have hp : pending
          { int_table := s.int_table.set k1 { r with cpu := cpu % 65536, gst := gst },
            arch := s.arch,
            log := s.log ++ [.trace_intr,
              .gicd_conf (add32 k1 c.SPI_BASE) (some trg) (some cpu),
              .gicd_mask (add32 k1 c.SPI_BASE) msk] } k = pending s k := by
        by_cases hk : k1 = k
        · subst hk
          simp [pending, hlt, hr]
        · exact pending_congr _ _ (List.getElem?_set_ne hk)
      rw [hp]; omega
  | deactivate_spi k1 =>
    simp only [step] at h
    obtain ⟨r, hr, -, ⟨hd, hs⟩ | ⟨hd, ht, hl⟩⟩ := deactivate_spi_ok h
    · subst hs
      simp [issued_dirs_self]
    · have hlt : k1 < s.int_table.length := (List.getElem?_eq_some_iff.mp hr).1
      by_cases hk : k1 = k
      · subst hk
        have h1 : issued_dirs s s1 = 1 := by
          simp [issued_dirs, hl, is_gicc_dir]
        have h2 : pending s1 k1 = 0 := by
          simp [pending, ht, hlt]
        have h3 : pending s k1 = 1 := by
          simp [pending, hr, hd]
        simp only [if_true, h1, h2, h3]
        omega
      · have hne : Op.deactivate_spi k1 ≠ Op.deactivate_spi k := by
          intro e; exact hk (Op.deactivate_spi.inj e)
        simp only [hne, if_false, Nat.zero_add]
        rw [pending_congr s s1 (by rw [ht]; exact List.getElem?_set_ne hk)]
        omega

/-- The static table has every dir flag clear. -/
theorem int_table_static_clear (c : Consts) :
    ∀ r ∈ int_table_static c, r.dir = false := by
  intro r hr
  rw [(List.mem_replicate.mp hr).2]

/-- One iteration of the loop of init keeps every dir flag clear. -/
theorem init_step_clear (i : Nat) (s : State) (h : ∀ r ∈ s.int_table, r.dir = false) :
    ∀ r ∈ (init_step i s).int_table, r.dir = false := by
  unfold init_step
  cases hr : s.int_table[i]? with
  | none => exact h
  | some r0 =>
    intro r hmem
    simp only [emit] at hmem
    rcases List.mem_or_eq_of_mem_set hmem with hm | he
    · exact h r hm
    · rw [he]; exact h r0 (List.getElem?_mem hr)

/-- Interrupt::init keeps every dir flag clear. -/
theorem init_clear (c : Consts) (s : State) (h : ∀ r ∈ s.int_table, r.dir = false) :
    ∀ r ∈ (init c s).int_table, r.dir = false := by
  unfold init
  generalize List.range c.SPI_NUM = is
  induction is generalizing s with
  | nil => exact h
  | cons i rest ih => exact ih (init_step i s) (init_step_clear i s h)

/-- Along a run, the Gicc::dir calls issued by deactivate_spi (k) are covered
by the flag of line k at the start plus the acknowledges of line k taken
while the line is host-owned. -/
theorem run_latch (c : Consts) (k : Nat) (ops : List Op) :
    ∀ s : State, deact_dirs c k ops s ≤ host_acks c k ops s + pending s k := by
  induction ops with
  | nil => intro s; simp [deact_dirs]
  | cons op rest ih =>
    intro s
    unfold deact_dirs host_acks
    cases hs : step c op s with
    | fault f s1 => simp
    | ok u s1 =>
      have h1 := step_latch (k := k) hs
      have h2 := ih s1
      simp only
      omega

/-- Acknowledges taken while the line is host-owned are acknowledges. -/
theorem host_acks_le_acks (c : Consts) (k : Nat) (ops : List Op) :
    ∀ s : State, host_acks c k ops s ≤ acks c k ops s := by
  induction ops with
  | nil => intro s; simp [host_acks]
  | cons op rest ih =>
    intro s
    unfold host_acks acks
    cases hs : step c op s with
    | fault f s1 => simp
    | ok u s1 =>
      have h2 := ih s1
      simp only
      cases acks_line c k op <;> cases host_owned s k <;> simp <;> omega

/-- C13: the dir flag is a latch against double deactivation.  For every
sequence of handler, conf_sgi, conf_ppi, conf_spi, send_sgi and
deactivate_spi calls run from a table with every dir flag clear, and every
line k, at every point of the sequence the number of Gicc::dir calls issued
by deactivate_spi (k) is at most the number of handler invocations that
have acknowledged line k.  From any state, a stretch of calls that holds no
acknowledge of line k has at most one Gicc::dir issued by
deactivate_spi (k), and none when it starts with every flag clear.  The
table that Interrupt::init makes of the static table has every flag clear,
so the bound holds at every point of every sequence run from it. -/
theorem latch_no_double_deactivation (c : Consts) (k : Nat) (ops : List Op) (s : State) :
    ((∀ r ∈ s.int_table, r.dir = false) →
      ∀ n : Nat, deact_dirs c k (ops.take n) s ≤ acks c k (ops.take n) s) ∧
    (acks c k ops s = 0 → deact_dirs c k ops s ≤ 1) ∧
    ((∀ r ∈ s.int_table, r.dir = false) → acks c k ops s = 0 → deact_dirs c k ops s = 0) ∧
    (∀ (a : Nat) (l : List Effect) (n : Nat),
      deact_dirs c k (ops.take n)
          (init c { int_table := int_table_static c, arch := a, log := l })
        ≤ acks c k (ops.take n)
          (init c { int_table := int_table_static c, arch := a, log := l })) := by
  refine ⟨?_, ?_, ?_, ?_⟩
  · intro hclear n
    have h1 := run_latch c k (ops.take n) s
    have h2 := host_acks_le_acks c k (ops.take n) s
    have h3 := pending_clear hclear k
    omega
  · intro h0
    have h1 := run_latch c k ops s
    have h2 := host_acks_le_acks c k ops s
    have h3 := pending_le_one s k
    omega
  · intro hclear h0
    have h1 := run_latch c k ops s
    have h2 := host_acks_le_acks c k ops s
    have h3 := pending_clear hclear k
    omega
  · intro a l n
    have hclear := init_clear c { int_table := int_table_static c, arch := a, log := l }
      (int_table_static_clear c)
    have h1 := run_latch c k (ops.take n)
      (init c { int_table := int_table_static c, arch := a, log := l })
    have h2 := host_acks_le_acks c k (ops.take n)
      (init c { int_table := int_table_static c, arch := a, log := l })
    have h3 := pending_clear hclear k
    omega

/-- Every dir flag of the sample table is clear when line 3 is given a clear
flag. -/
theorem sampleState_clear (gst : Bool) :
    ∀ r ∈ (sampleState gst false).int_table, r.dir = false := by
  intro r hr
  simp only [sampleState, sampleTable] at hr
  rcases List.mem_or_eq_of_mem_set hr with h | h
  · simp only [List.mem_map] at h
    obtain ⟨i, -, rfl⟩ := h
    rfl
  · subst h; rfl

set_option maxRecDepth 100000 in
/-- Instance of latch_no_double_deactivation: line 3 of the sample table,
host-owned, acknowledged once and deactivated twice. -/
theorem latch_no_double_deactivation_witness :
    (∀ n : Nat,
      deact_dirs sampleConsts 3
          (List.take n [Op.handler false 35, Op.deactivate_spi 3, Op.deactivate_spi 3])
          (sampleState false false)
        ≤ acks sampleConsts 3
          (List.take n [Op.handler false 35, Op.deactivate_spi 3, Op.deactivate_spi 3])
          (sampleState false false)) ∧
    deact_dirs sampleConsts 3 [Op.handler false 35, Op.deactivate_spi 3, Op.deactivate_spi 3]
      (sampleState false false) = 1 ∧
    acks sampleConsts 3 [Op.handler false 35, Op.deactivate_spi 3, Op.deactivate_spi 3]
      (sampleState false false) = 1 :=
  ⟨(latch_no_double_deactivation sampleConsts 3
      [Op.handler false 35, Op.deactivate_spi 3, Op.deactivate_spi 3]
      (sampleState false false)).1 (sampleState_clear false),
    by decide, by decide⟩

/-! ## Assertions -/

/-- The wrapping subtraction agrees with subtraction of integers modulo 2^32. -/
theorem sub32_int (a b : Nat) :
    ((sub32 a b : Nat) : Int) = ((a : Int) - (b : Int)) % 4294967296 := by
  unfold sub32
  omega

/-- C14: with SGI_BASE = 0, SGI_BASE <= PPI_BASE <= SPI_BASE <= RSV_BASE and
SGI_NUM, PPI_NUM, SPI_NUM the differences of consecutive bases, for every
raw value and either vcpu flag: in the branch the dispatcher takes, the
class base is at most the identifier (the subtraction does not wrap) and
the decoded index is below the class count, so Interrupt::handler never
fails an assertion; and over a table of SPI_NUM records handle_spi never
indexes outside int_table: the only abnormal exit left is a null semaphore
pointer. -/
theorem handler_assertions_unreachable (c : Consts) (vcpu : Bool) (val : Nat) (s : State)
    (h0 : c.SGI_BASE = 0) (h1 : c.SGI_BASE ≤ c.PPI_BASE) (h2 : c.PPI_BASE ≤ c.SPI_BASE)
    (h3 : c.SPI_BASE ≤ c.RSV_BASE) (hsgi : c.SGI_NUM = c.PPI_BASE - c.SGI_BASE)
    (hppi : c.PPI_NUM = c.SPI_BASE - c.PPI_BASE) (hspi : c.SPI_NUM = c.RSV_BASE - c.SPI_BASE) :
    (route c (val &&& 0x3ff) = .sgi →
      c.SGI_BASE ≤ val &&& 0x3ff ∧
      sub32 (val &&& 0x3ff) c.SGI_BASE = (val &&& 0x3ff) - c.SGI_BASE ∧
      sub32 (val &&& 0x3ff) c.SGI_BASE < c.SGI_NUM) ∧
    (route c (val &&& 0x3ff) = .ppi →
      c.PPI_BASE ≤ val &&& 0x3ff ∧
      sub32 (val &&& 0x3ff) c.PPI_BASE = (val &&& 0x3ff) - c.PPI_BASE ∧
      sub32 (val &&& 0x3ff) c.PPI_BASE < c.PPI_NUM) ∧
    (route c (val &&& 0x3ff) = .spi →
      c.SPI_BASE ≤ val &&& 0x3ff ∧
      sub32 (val &&& 0x3ff) c.SPI_BASE = (val &&& 0x3ff) - c.SPI_BASE ∧
      sub32 (val &&& 0x3ff) c.SPI_BASE < c.SPI_NUM) ∧
    (∀ s1 : State, handler c vcpu val s ≠ .fault .assertion s1) ∧
    (s.int_table.length = c.SPI_NUM →
      ∀ (f : Fault) (s1 : State), handler c vcpu val s = .fault f s1 → f = .null_deref) := by
  have hb := land_3ff_lt val
  have esgi : val &&& 0x3ff < c.PPI_BASE →
      sub32 (val &&& 0x3ff) c.SGI_BASE = (val &&& 0x3ff) - c.SGI_BASE ∧
      sub32 (val &&& 0x3ff) c.SGI_BASE < c.SGI_NUM := by
    intro hlt
    have e := sub32_eq_sub (a := val &&& 0x3ff) (b := c.SGI_BASE) (by omega) (by omega)
    exact ⟨e, by omega⟩
  have eppi : ¬ (val &&& 0x3ff < c.PPI_BASE) → val &&& 0x3ff < c.SPI_BASE →
      sub32 (val &&& 0x3ff) c.PPI_BASE = (val &&& 0x3ff) - c.PPI_BASE ∧
      sub32 (val &&& 0x3ff) c.PPI_BASE < c.PPI_NUM := by
    intro hge hlt
    have e := sub32_eq_sub (a := val &&& 0x3ff) (b := c.PPI_BASE) (by omega) (by omega)
    exact ⟨e, by omega⟩
  have espi : ¬ (val &&& 0x3ff < c.SPI_BASE) → val &&& 0x3ff < c.RSV_BASE →
      sub32 (val &&& 0x3ff) c.SPI_BASE = (val &&& 0x3ff) - c.SPI_BASE ∧
      sub32 (val &&& 0x3ff) c.SPI_BASE < c.SPI_NUM := by
    intro hge hlt
    have e := sub32_eq_sub (a := val &&& 0x3ff) (b := c.SPI_BASE) (by omega) (by omega)
    exact ⟨e, by omega⟩
  refine ⟨?_, ?_, ?_, ?_, ?_⟩
  · intro hr
    by_cases a1 : val &&& 0x3ff < c.PPI_BASE
    · exact ⟨by omega, esgi a1⟩
    · by_cases a2 : val &&& 0x3ff < c.SPI_BASE
      · simp [route, a1, a2] at hr
      · by_cases a3 : val &&& 0x3ff < c.RSV_BASE <;> simp [route, a1, a2, a3] at hr
  · intro hr
    by_cases a1 : val &&& 0x3ff < c.PPI_BASE
    · simp [route, a1] at hr
    · by_cases a2 : val &&& 0x3ff < c.SPI_BASE
      · exact ⟨by omega, eppi a1 a2⟩
      · by_cases a3 : val &&& 0x3ff < c.RSV_BASE <;> simp [route, a1, a2, a3] at hr
  · intro hr
    by_cases a1 : val &&& 0x3ff < c.PPI_BASE
    · simp [route, a1] at hr
    · by_cases a2 : val &&& 0x3ff < c.SPI_BASE
      · simp [route, a1, a2] at hr
      · by_cases a3 : val &&& 0x3ff < c.RSV_BASE
        · exact ⟨by omega, espi a2 a3⟩
        · simp [route, a1, a2, a3] at hr
  · intro s1
    unfold handler
    by_cases a1 : val &&& 0x3ff < c.PPI_BASE
    · simp [a1, handle_sgi, (esgi a1).2]
    · by_cases a2 : val &&& 0x3ff < c.SPI_BASE
      · simp [a1, a2, handle_ppi, (eppi a1 a2).2]
      · by_cases a3 : val &&& 0x3ff < c.RSV_BASE
        · simp only [a1, a2, a3, if_true, if_false, handle_spi, (espi a2 a3).2]
          split
          · simp
          · split
            · simp
            · split <;> simp
        · simp [a1, a2, a3]
  · intro hlen f s1
    unfold handler
    by_cases a1 : val &&& 0x3ff < c.PPI_BASE
    · simp [a1, handle_sgi, (esgi a1).2]
    · by_cases a2 : val &&& 0x3ff < c.SPI_BASE
      · simp [a1, a2, handle_ppi, (eppi a1 a2).2]
      · by_cases a3 : val &&& 0x3ff < c.RSV_BASE
        · have hidx : sub32 (val &&& 0x3ff) c.SPI_BASE < s.int_table.length := by
            rw [hlen]; exact (espi a2 a3).2
          simp only [a1, a2, a3, if_true, if_false, handle_spi, (espi a2 a3).2]
          split
          · simp
          · simp only [emit, List.getElem?_eq_getElem hidx]
            split
            · simp
              intro e _; exact e.symm
            · simp
        · simp [a1, a2, a3]

set_option maxRecDepth 100000 in
/-- Instance of handler_assertions_unreachable: the sample constants, which
have SGI_BASE = 0 and 16, 16 and 988 identifiers in the three classes, and
identifier 35 over the sample table. -/
theorem handler_assertions_unreachable_witness :
    (∀ s1 : State, handler sampleConsts true 35 (sampleState true false)
      ≠ .fault .assertion s1) ∧
    ((sampleState true false).int_table.length = sampleConsts.SPI_NUM →
      ∀ (f : Fault) (s1 : State),
        handler sampleConsts true 35 (sampleState true false) = .fault f s1 →
          f = .null_deref) :=
  (handler_assertions_unreachable sampleConsts true 35 (sampleState true false)
    (by decide) (by decide) (by decide) (by decide) (by decide) (by decide)
    (by decide)).2.2.2

/-- C15: each class handler called directly fails its assertion exactly when
its decoded index ((val & 0x3ff) - BASE) mod 2^32 is at or above the class
count, and then exits in the state it was called in: no call has been
issued and the table is as it was, whatever it holds.  An identifier below
the class base wraps to an index of at least 2^32 - BASE and so fails when
BASE + NUM <= 2^32.  handle_sgi and handle_ppi have no other abnormal
exit. -/
theorem class_handlers_assert (c : Consts) (val : Nat) (vcpu : Bool) (s : State) :
    ((handle_sgi c val vcpu s = .fault .assertion s ↔
        (c.SGI_NUM : Int) ≤ (((val &&& 0x3ff : Nat) : Int) - (c.SGI_BASE : Int)) % 4294967296) ∧
      (∀ (f : Fault) (s1 : State),
        handle_sgi c val vcpu s = .fault f s1 → f = .assertion ∧ s1 = s) ∧
      (val &&& 0x3ff < c.SGI_BASE → c.SGI_BASE + c.SGI_NUM ≤ 4294967296 →
        handle_sgi c val vcpu s = .fault .assertion s)) ∧
    ((handle_ppi c val vcpu s = .fault .assertion s ↔
        (c.PPI_NUM : Int) ≤ (((val &&& 0x3ff : Nat) : Int) - (c.PPI_BASE : Int)) % 4294967296) ∧
      (∀ (f : Fault) (s1 : State),
        handle_ppi c val vcpu s = .fault f s1 → f = .assertion ∧ s1 = s) ∧
      (val &&& 0x3ff < c.PPI_BASE → c.PPI_BASE + c.PPI_NUM ≤ 4294967296 →
        handle_ppi c val vcpu s = .fault .assertion s)) ∧
    ((handle_spi c val vcpu s = .fault .assertion s ↔
        (c.SPI_NUM : Int) ≤ (((val &&& 0x3ff : Nat) : Int) - (c.SPI_BASE : Int)) % 4294967296) ∧
      (∀ s1 : State, handle_spi c val vcpu s = .fault .assertion s1 →
        s1 = s ∧ c.SPI_NUM ≤ sub32 (val &&& 0x3ff) c.SPI_BASE) ∧
      (val &&& 0x3ff < c.SPI_BASE → c.SPI_BASE + c.SPI_NUM ≤ 4294967296 →
        handle_spi c val vcpu s = .fault .assertion s)) := by
  have hb := land_3ff_lt val
  have isgi := sub32_int (val &&& 0x3ff) c.SGI_BASE
  have ippi := sub32_int (val &&& 0x3ff) c.PPI_BASE
  have ispi := sub32_int (val &&& 0x3ff) c.SPI_BASE
  have wrap : ∀ b n : Nat, val &&& 0x3ff < b → b + n ≤ 4294967296 →
      ¬ (sub32 (val &&& 0x3ff) b < n) := by
    intro b n hlt hfit
    unfold sub32
    omega
  refine ⟨⟨?_, ?_, ?_⟩, ⟨?_, ?_, ?_⟩, ⟨?_, ?_, ?_⟩⟩
  · rw [← isgi]
    by_cases hlt : sub32 (val &&& 0x3ff) c.SGI_BASE < c.SGI_NUM
    · simp [handle_sgi, hlt]
    · simp only [handle_sgi, hlt, if_false, true_iff]; omega
  · intro f s1
    by_cases hlt : sub32 (val &&& 0x3ff) c.SGI_BASE < c.SGI_NUM
    · simp [handle_sgi, hlt]
    · simp only [handle_sgi, hlt, if_false, Res.fault.injEq]
      intro h; exact ⟨h.1.symm, h.2.symm⟩
  · intro hlt hfit
    simp [handle_sgi, wrap c.SGI_BASE c.SGI_NUM hlt hfit]
  · rw [← ippi]
    by_cases hlt : sub32 (val &&& 0x3ff) c.PPI_BASE < c.PPI_NUM
    · simp [handle_ppi, hlt]
    · simp only [handle_ppi, hlt, if_false, true_iff]; omega
  · intro f s1
    by_cases hlt : sub32 (val &&& 0x3ff) c.PPI_BASE < c.PPI_NUM
    · simp [handle_ppi, hlt]
    · simp only [handle_ppi, hlt, if_false, Res.fault.injEq]
      intro h; exact ⟨h.1.symm, h.2.symm⟩
  · intro hlt hfit
    simp [handle_ppi, wrap c.PPI_BASE c.PPI_NUM hlt hfit]
  · rw [← ispi]
    by_cases hlt : sub32 (val &&& 0x3ff) c.SPI_BASE < c.SPI_NUM
    · have hno : handle_spi c val vcpu s ≠ .fault .assertion s := by
        simp only [handle_spi, hlt, if_true]
        split
        · simp
        · split
          · simp
          · split <;> simp
      constructor
      · intro h; exact absurd h hno
      · intro h; omega
    · simp only [handle_spi, hlt, if_false, true_iff]; omega
  · intro s1
    by_cases hlt : sub32 (val &&& 0x3ff) c.SPI_BASE < c.SPI_NUM
    · simp only [handle_spi, hlt, if_true]
      split
      · simp
      · split
        · simp
        · split <;> simp
    · simp only [handle_spi, hlt, if_false, Res.fault.injEq, true_and]
      intro h; exact ⟨h.symm, by omega⟩
  · intro hlt hfit
    simp [handle_spi, wrap c.SPI_BASE c.SPI_NUM hlt hfit]

set_option maxRecDepth 100000 in
/-- Instance of class_handlers_assert: handle_spi called on identifier 20,
which lies below SPI_BASE = 32 and wraps to index 2^32 - 12. -/
theorem class_handlers_assert_witness :
    handle_spi sampleConsts 20 false (sampleState true false)
      = .fault .assertion (sampleState true false) :=
  (class_handlers_assert sampleConsts 20 false (sampleState true false)).2.2.2.2
    (by decide) (by decide)

/-! ## Event selector and controller selection -/

/-- C16: hand-off rule.  With VTIMER_PPI an in-range private index distinct
from HTIMER_PPI, whenever Interrupt::handler completes: the selector
returned is VTIMER iff the low 10 bits of the raw value are
PPI_BASE + VTIMER_PPI and the vcpu flag is true, and is NONE otherwise;
when it is not NONE the calls issued are the acknowledge and exactly one
Gicc::eoi, with no Gicc::dir; when it is NONE and the identifier is
software-generated or private (below SPI_BASE), the calls issued are the
acknowledge, at most one callback, then exactly one Gicc::eoi followed by
exactly one Gicc::dir. -/
theorem handler_selector (c : Consts) (vcpu : Bool) (val : Nat) (s s1 : State)
    (evt : Selector)
    (hlay : c.PPI_BASE + c.PPI_NUM ≤ c.SPI_BASE) (hv : c.VTIMER_PPI < c.PPI_NUM)
    (hne : c.HTIMER_PPI ≠ c.VTIMER_PPI)
    (h : handler c vcpu val s = .ok evt s1) :
    (evt = .VTIMER ↔ (val &&& 0x3ff = c.PPI_BASE + c.VTIMER_PPI ∧ vcpu = true)) ∧
    (evt ≠ .VTIMER → evt = .NONE) ∧
    (evt ≠ .NONE → s1.log = s.log ++ [.gicc_ack, .gicc_eoi val]) ∧
    (evt = .NONE → val &&& 0x3ff < c.SPI_BASE →
      s1.log = s.log ++ [.gicc_ack, .gicc_eoi val, .gicc_dir val] ∨
      s1.log = s.log ++ [.gicc_ack, .sc_rrq_handler, .gicc_eoi val, .gicc_dir val] ∨
      s1.log = s.log ++ [.gicc_ack, .timer_interrupt, .gicc_eoi val, .gicc_dir val]) := by
  have hb := land_3ff_lt val
  unfold handler at h
  by_cases a1 : val &&& 0x3ff < c.PPI_BASE
  · simp only [a1, if_true] at h
    obtain ⟨he, -, -, hl⟩ := handle_sgi_ok h
    subst he
    refine ⟨?_, fun _ => rfl, fun hn => absurd rfl hn, fun _ _ => ?_⟩
    · constructor
      · intro e; cases e
      · intro ⟨e, _⟩; omega
    · rcases hl with hl | hl
      · left; rw [hl]; simp [emit]
      · right; left; rw [hl]; simp [emit]
  · by_cases a2 : val &&& 0x3ff < c.SPI_BASE
    · simp only [a1, a2, if_true, if_false] at h
      have hidx : sub32 (val &&& 0x3ff) c.PPI_BASE = (val &&& 0x3ff) - c.PPI_BASE :=
        sub32_eq_sub (by omega) (by omega)
      obtain ⟨-, -, ⟨he, hi, -, hvc, hl⟩ | ⟨he, hnot, hl⟩⟩ := handle_ppi_ok h
      · subst he
        refine ⟨?_, fun hn => absurd rfl hn, fun _ => ?_, fun e => by cases e⟩
        · constructor
          · intro _; exact ⟨by omega, hvc⟩
          · intro _; rfl
        · rw [hl]; simp [emit]
      · subst he
        refine ⟨?_, fun _ => rfl, fun hn => absurd rfl hn, fun _ _ => ?_⟩
        · constructor
          · intro e; cases e
          · intro ⟨e, hvc⟩
            exact absurd ⟨by omega, fun e2 => hne e2.symm, hvc⟩ hnot
        · rcases hl with hl | hl
          · left; rw [hl]; simp [emit]
          · right; right; rw [hl]; simp [emit]
    · have hnv : ¬ (val &&& 0x3ff = c.PPI_BASE + c.VTIMER_PPI ∧ vcpu = true) := by
        intro ⟨e, _⟩; omega
      by_cases a3 : val &&& 0x3ff < c.RSV_BASE
      · simp only [a1, a2, a3, if_true, if_false] at h
        obtain ⟨he, -⟩ := handle_spi_ok h
        subst he
        refine ⟨?_, fun _ => rfl, fun hn => absurd rfl hn, fun _ hlt => absurd hlt a2⟩
        constructor
        · intro e; cases e
        · intro e; exact absurd e hnv
      · simp only [a1, a2, a3, if_false, Res.ok.injEq] at h
        obtain ⟨he, -⟩ := h
        subst he
        refine ⟨?_, fun _ => rfl, fun hn => absurd rfl hn, fun _ hlt => absurd hlt a2⟩
        constructor
        · intro e; cases e
        · intro e; exact absurd e hnv

set_option maxRecDepth 100000 in
/-- Instance of handler_selector: identifier 27 = PPI_BASE + 11 acknowledged
in a virtual-CPU context, under a raw value with further high bits set. -/
theorem handler_selector_witness :
    handler sampleConsts true 1051 (sampleState true false) = .ok .VTIMER
      { int_table := sampleTable true false, arch := 2,
        log := [.gicc_ack, .gicc_eoi 1051] } ∧
    ((Selector.VTIMER = .VTIMER ↔
        (1051 &&& 0x3ff = sampleConsts.PPI_BASE + sampleConsts.VTIMER_PPI ∧ true = true)) ∧
      (Selector.VTIMER ≠ .VTIMER → Selector.VTIMER = .NONE) ∧
      (Selector.VTIMER ≠ .NONE →
        [Effect.gicc_ack, .gicc_eoi 1051]
          = (sampleState true false).log ++ [.gicc_ack, .gicc_eoi 1051]) ∧
      (Selector.VTIMER = .NONE → 1051 &&& 0x3ff < sampleConsts.SPI_BASE →
        [Effect.gicc_ack, .gicc_eoi 1051]
          = (sampleState true false).log ++ [.gicc_ack, .gicc_eoi 1051, .gicc_dir 1051] ∨
        [Effect.gicc_ack, .gicc_eoi 1051]
          = (sampleState true false).log
            ++ [.gicc_ack, .sc_rrq_handler, .gicc_eoi 1051, .gicc_dir 1051] ∨
        [Effect.gicc_ack, .gicc_eoi 1051]
          = (sampleState true false).log
            ++ [.gicc_ack, .timer_interrupt, .gicc_eoi 1051, .gicc_dir 1051])) :=
  ⟨by decide,
    handler_selector sampleConsts true 1051 (sampleState true false)
      { int_table := sampleTable true false, arch := 2,
        log := [.gicc_ack, .gicc_eoi 1051] } .VTIMER
      (by decide) (by decide) (by decide) (by decide)⟩

/-- The wrapping sum is the sum when it fits in 32 bits. -/
theorem add32_eq_add {a b : Nat} (h : a + b < 4294967296) : add32 a b = a + b := by
  unfold add32; omega

/-- C17: the generation Gicd::arch alone selects the controller variant, and
the line number passed is the unsigned sum of the index and the class base.
conf_sgi and conf_ppi issue, after the diagnostic record, exactly one conf
call and then one mask call, both on Gicd when arch < 3 and both on Gicr
otherwise, for line sgi + SGI_BASE and ppi + PPI_BASE; send_sgi issues
exactly one send, Gicd::send_sgi when arch < 3 and Gicc::send_sgi
otherwise; conf_spi on a line of the table issues
Gicd::conf (spi + SPI_BASE, trg, cpu) and then Gicd::mask (spi + SPI_BASE,
msk) whatever the generation.  conf_sgi, conf_ppi and send_sgi return the
table they were given. -/
theorem conf_selects_controller (c : Consts) (s : State) :
    (∀ (sgi : Nat) (msk : Bool),
      conf_sgi c sgi msk s =
        { int_table := s.int_table, arch := s.arch,
          log := s.log ++ [.trace_intr] ++
            (if s.arch < 3 then
              [.gicd_conf (add32 sgi c.SGI_BASE) none none,
               .gicd_mask (add32 sgi c.SGI_BASE) msk]
            else
              [.gicr_conf (add32 sgi c.SGI_BASE) none,
               .gicr_mask (add32 sgi c.SGI_BASE) msk]) }) ∧
    (∀ (ppi : Nat) (msk trg : Bool),
      conf_ppi c ppi msk trg s =
        { int_table := s.int_table, arch := s.arch,
          log := s.log ++ [.trace_intr] ++
            (if s.arch < 3 then
              [.gicd_conf (add32 ppi c.PPI_BASE) (some trg) none,
               .gicd_mask (add32 ppi c.PPI_BASE) msk]
            else
              [.gicr_conf (add32 ppi c.PPI_BASE) (some trg),
               .gicr_mask (add32 ppi c.PPI_BASE) msk]) }) ∧
    (∀ (sgi cpu : Nat),
      send_sgi sgi cpu s =
        { int_table := s.int_table, arch := s.arch,
          log := s.log ++
            [if s.arch < 3 then Effect.gicd_send_sgi sgi cpu
             else Effect.gicc_send_sgi sgi cpu] }) ∧
    (∀ (k cpu : Nat) (msk trg gst : Bool) (r : Interrupt),
      s.int_table[k]? = some r →
      conf_spi c k cpu msk trg gst s = .ok ()
        { int_table := s.int_table.set k { r with cpu := cpu % 65536, gst := gst },
          arch := s.arch,
          log := s.log ++ [.trace_intr,
            .gicd_conf (add32 k c.SPI_BASE) (some trg) (some cpu),
            .gicd_mask (add32 k c.SPI_BASE) msk] }) ∧
    (∀ id base : Nat, id + base < 4294967296 → add32 id base = id + base) := by
  refine ⟨?_, ?_, ?_, ?_, ?_⟩
  · intro sgi msk
    unfold conf_sgi
    by_cases ha : s.arch < 3 <;> simp [emit, ha]
  · intro ppi msk trg
    unfold conf_ppi
    by_cases ha : s.arch < 3 <;> simp [emit, ha]
  · intro sgi cpu
    unfold send_sgi
    by_cases ha : s.arch < 3 <;> simp [emit, ha]
  · intro k cpu msk trg gst r hr
    exact conf_spi_run cpu msk trg gst hr
  · intro id base h
    exact add32_eq_add h

set_option maxRecDepth 100000 in
/-- Instance of conf_selects_controller: conf_spi on line 3 of the sample
table, for cpu 2. -/
theorem conf_selects_controller_witness :
    conf_spi sampleConsts 3 2 true false true (sampleState false false) = .ok ()
      { int_table := (sampleState false false).int_table.set 3
          { sm := some 3, cpu := 2 % 65536, gst := true, dir := false },
        arch := (sampleState false false).arch,
        log := (sampleState false false).log ++ [.trace_intr,
          .gicd_conf (add32 3 sampleConsts.SPI_BASE) (some false) (some 2),
          .gicd_mask (add32 3 sampleConsts.SPI_BASE) true] } :=
  (conf_selects_controller sampleConsts (sampleState false false)).2.2.2.1
    3 2 true false true { sm := some 3, cpu := 0, gst := false, dir := false } (by decide)

/-! ## What handle_spi does to the latch -/

/-- Writing back the record a table already holds leaves the table as it
was. -/
theorem set_same : ∀ (t : List Interrupt) (k : Nat) (r : Interrupt),
    t[k]? = some r → t.set k r = t
  | [], _, _, h => by simp at h
  | a :: t, 0, r, h => by
    simp at h
    simp [h]
  | a :: t, k + 1, r, h => by
    simp at h
    simp [set_same t k r h]

/-- C18: for an in-range shared index k other than SMMU_SPI and a raw value
decoding to k, handle_spi returns NONE having issued exactly Gicc::eoi (val)
followed by one Sm::up of the semaphore of line k, and no Gicc::dir; the
dir flag of line k afterwards is (dir before) or (not gst), the other
fields and records being as before, and for a guest-owned line the whole
table is as before.  A deactivate_spi (k) right after it issues one
Gicc::dir when the line is host-owned and none when the line is guest-owned
with a clear flag; and along any run from a table with every flag clear,
the Gicc::dir calls issued by deactivate_spi (k) are at most the
acknowledges of line k taken while the line was host-owned. -/
theorem handle_spi_latch (c : Consts) (val k h : Nat) (vcpu : Bool) (s : State)
    (r : Interrupt)
    (hk : k < c.SPI_NUM) (hne : k ≠ c.SMMU_SPI) (hval : val &&& 0x3ff = c.SPI_BASE + k)
    (hrec : s.int_table[k]? = some r) (hsm : r.sm = some h) :
    handle_spi c val vcpu s = .ok .NONE
      { int_table := s.int_table.set k { r with dir := r.dir || !r.gst },
        arch := s.arch,
        log := s.log ++ [.gicc_eoi val, .sm_up h] } ∧
    (handle_spi c val vcpu s).line k = some { r with dir := r.dir || !r.gst } ∧
    (r.gst = true →
      handle_spi c val vcpu s = .ok .NONE
        { int_table := s.int_table, arch := s.arch,
          log := s.log ++ [.gicc_eoi val, .sm_up h] }) ∧
    (r.gst = false →
      deactivate_spi c k
          { int_table := s.int_table.set k { r with dir := true }, arch := s.arch,
            log := s.log ++ [.gicc_eoi val, .sm_up h] }
        = .ok ()
          { int_table := s.int_table.set k { r with dir := false }, arch := s.arch,
            log := s.log ++ [.gicc_eoi val, .sm_up h, .gicc_dir (add32 k c.SPI_BASE)] }) ∧
    (r.gst = true → r.dir = false →
      deactivate_spi c k
          { int_table := s.int_table, arch := s.arch,
            log := s.log ++ [.gicc_eoi val, .sm_up h] }
        = .ok ()
          { int_table := s.int_table, arch := s.arch,
            log := s.log ++ [.gicc_eoi val, .sm_up h] }) ∧
    (∀ (ops : List Op) (s0 : State), (∀ r0 ∈ s0.int_table, r0.dir = false) →
      deact_dirs c k ops s0 ≤ host_acks c k ops s0) := by
  have hlt : k < s.int_table.length := (List.getElem?_eq_some_iff.mp hrec).1
  have hrun := handle_spi_line (c := c) vcpu hk hne hval hrec hsm
  have hself := set_same s.int_table k r hrec
  obtain ⟨rsm, rcpu, rgst, rdir⟩ := r
  refine ⟨?_, ?_, ?_, ?_, ?_, ?_⟩
  · rw [hrun]
    cases rgst
    · simp
    · cases rdir <;> simpa using hself.symm
  · rw [hrun]
    cases rgst
    · simp [Res.line, hlt]
    · cases rdir <;> simpa [Res.line] using hrec
  · intro hg
    simp only at hg
    subst hg
    rw [hrun]; simp
  · intro _
    simp [deactivate_spi, hlt, emit]
  · intro hg hd
    simp only at hg hd
    subst hg hd
    simp [deactivate_spi, hrec]
  · intro ops s0 hclear
    have h1 := run_latch c k ops s0
    have h2 := pending_clear hclear k
    omega

set_option maxRecDepth 100000 in
/-- Instance of handle_spi_latch: line 3 of the sample table, host-owned with
a clear flag, decoded from identifier 35. -/
theorem handle_spi_latch_witness :
    handle_spi sampleConsts 35 false (sampleState false false) = .ok .NONE
      { int_table := (sampleState false false).int_table.set 3
          { sm := some 3, cpu := 0, gst := false, dir := false || !false },
        arch := (sampleState false false).arch,
        log := (sampleState false false).log ++ [.gicc_eoi 35, .sm_up 3] } ∧
    (handle_spi sampleConsts 35 false (sampleState false false)).line 3
      = some { sm := some 3, cpu := 0, gst := false, dir := false || !false } :=
  ⟨(handle_spi_latch sampleConsts 35 3 3 false (sampleState false false)
      { sm := some 3, cpu := 0, gst := false, dir := false }
      (by decide) (by decide) (by decide) (by decide) rfl).1,
   (handle_spi_latch sampleConsts 35 3 3 false (sampleState false false)
      { sm := some 3, cpu := 0, gst := false, dir := false }
      (by decide) (by decide) (by decide) (by decide) rfl).2.1⟩

end Nova
